import Mathlib

/-!
Shallow embedding of the gorth stack-language interpreter (the final revision
of the Go source: lexer `Tokenize`, the `Gorth` execution engine and its
operator implementations, and `ExecuteProgram`), together with theorems
settling the specification claims.

Modelling conventions:
* Go `int` is a signed 64-bit integer whose arithmetic wraps; we model it as
  `Int` and apply `wrap64` wherever the source performs `int` arithmetic.
* Go `float64` values are modelled opaquely by `FloatRep`: a parsed literal
  keeps its source text verbatim, and the result of any float arithmetic is
  the opaque marker `FloatRep.arith`.  No verified claim depends on the
  numeric value of a float.
* Go maps are modelled as association lists with unique keys (`VarMap`).
* A Go method mutating its receiver and returning `error` is modelled as a
  function `Gorth → Gorth × Option Err`: the returned state reflects all
  mutations performed before an early `return err`, exactly as in Go.
* A Go runtime panic (process abort, as opposed to a returned `error`) is
  modelled by the dedicated result `Err.goPanic`.
-/

/-- The `Type` enumeration of the source (`Int`, `String`, `Bool`, `Float`,
`Operator`, `Identifier`, `SpecialSymbol`, `KeyWord`), in source order. -/
inductive Ty where
  | int
  | str
  | bool
  | float
  | operator
  | identifier
  | specialSymbol
  | keyWord
deriving DecidableEq

/-- The `Operation` enumeration of the source. -/
inductive Op where
  | add
  | sub
  | mul
  | div
  | mod
  | exp
  | inc
  | dec
  | swap
  | dup
  | drop
  | dump
  | rot
  | print
  | and
  | or
  | not
  | equal
  | notEqual
  | equalTyp
  | gtThan
  | lsThan
  | gtThanEq
  | lsThanEq
  | varAssign
deriving DecidableEq

/-- Opaque model of a Go `float64`.  `lit s` is the value parsed from the
literal text `s` (kept verbatim); `arith` marks the result of any float
arithmetic, which this development does not model (no verified claim
depends on a computed float value, and float64 rounding — e.g. that the
literals "1.0" and "1.00" parse to the same float64 — is not captured). -/
inductive FloatRep where
  | lit (s : String)
  | arith
deriving DecidableEq

/-- A `StackElement` of the source: the `Type` tag fused with the
`interface{}` payload.  Every `StackElement` constructed by the source pairs
the tag with the matching dynamic type, so fusing them loses nothing. -/
inductive Elem where
  | eint (n : Int)
  | estr (s : String)
  | ebool (b : Bool)
  | efloat (f : FloatRep)
  | eop (o : Op)
  | eident (name : String)
deriving DecidableEq

/-- The `Type` tag of a stack element (the source's `StackElement.Type`). -/
def Elem.ty : Elem → Ty
  | .eint _ => .int
  | .estr _ => .str
  | .ebool _ => .bool
  | .efloat _ => .float
  | .eop _ => .operator
  | .eident _ => .identifier

/-- The `interface{}` payload of a `Variable`.  `vnone` is Go's `nil`
(the value of a variable between its `/name` declaration and its first
value token). -/
inductive VVal where
  | vnone
  | vint (n : Int)
  | vstr (s : String)
  | vbool (b : Bool)
  | vfloat (f : FloatRep)
deriving DecidableEq

/-- Projection used to model Go's type assertion `.Value.(int)`.  The source
only applies the assertion under a guard on the variable's `Type` tag, and
every table entry keeps tag and payload consistent, so the default is
unreachable there. -/
def VVal.getInt : VVal → Int
  | .vint n => n
  | _ => 0

/-- Models the Go type assertion `.Value.(string)` (see `VVal.getInt`). -/
def VVal.getStr : VVal → String
  | .vstr s => s
  | _ => ""

/-- Models the Go type assertion `.Value.(bool)` (see `VVal.getInt`). -/
def VVal.getBool : VVal → Bool
  | .vbool b => b
  | _ => false

/-- Models the Go type assertion `.Value.(float64)` (see `VVal.getInt`). -/
def VVal.getFloat : VVal → FloatRep
  | .vfloat f => f
  | _ => .arith

/-- A `Variable` record of the source: `{Type, Value, Name, Const}`. -/
structure Variable where
  ty : Ty
  value : VVal
  name : String
  isConst : Bool
deriving DecidableEq

/-- The Go zero value of `Variable` (`Type` is `Int` = 0, `Value` is nil). -/
def Variable.zero : Variable := ⟨.int, .vnone, "", false⟩

/-- Go's `map[string]Variable`, as an association list with unique keys. -/
abbrev VarMap := List (String × Variable)

/-- Map lookup (`v, ok := m[k]` with `ok` as `Option`). -/
def vmFind : VarMap → String → Option Variable
  | [], _ => none
  | (k', v) :: rest, k => if k' = k then some v else vmFind rest k

/-- Map update `m[k] = v` (replaces an existing key, else appends). -/
def vmInsert : VarMap → String → Variable → VarMap
  | [], k, v => [(k, v)]
  | (k', v') :: rest, k, v =>
      if k' = k then (k, v) :: rest else (k', v') :: vmInsert rest k v

/-- Map lookup defaulting to the zero `Variable`, modelling Go's
`m[k]` expression (which yields the zero value for a missing key). -/
def vmGet (m : VarMap) (k : String) : Variable :=
  (vmFind m k).getD Variable.zero

/-- Every distinct error outcome of the source, one constructor per Go error
message family.  `goPanic` is not a returned error: it marks a Go runtime
panic that aborts the process. -/
inductive Err where
  | stackOverflow
  | popEmpty
  | peekEmpty
  | dropEmpty
  | notPrintable
  | rotUnderflow
  | cannotPerform (msg : String)
  | divByZero
  | varNotDeclared (name : String)
  | varAlreadyDeclared (name : String)
  | invalidToken (s : String)
  | invalidDeclValue (s : String)
  | assignEmpty
  | assignNonVariable
  | varNotDeclaredAssign (name : String)
  | constReassign (name : String)
  | assignTypeMismatch (vt : Ty)
  | unconsumedStack (leftover : List Elem)
  | goPanic (msg : String)
deriving DecidableEq

/-- `MAX_STACK_SIZE` of the source. -/
def MAX_STACK_SIZE : Nat := 999999

/-- The `Gorth` engine state.  The source keeps the top of `ExecStack` at the
end of the slice; we keep it at the head of the list, so the source's slice
equals `execStack.reverse`. -/
structure Gorth where
  execStack : List Elem
  varMap : VarMap
  debugMode : Bool
  strictMode : Bool
  maxStackSize : Nat
deriving DecidableEq

/-- `NewGorth` (with the variable table handed over from the lexer, as
`main` does with `g.VariableMap = variables`). -/
def mkGorth (vars : VarMap) (debugMode strictMode : Bool) : Gorth :=
  ⟨[], vars, debugMode, strictMode, MAX_STACK_SIZE⟩

/-- Result of a Go method that mutates the receiver and returns `error`:
the state after all mutations performed, and the returned error if any. -/
abbrev EngRes := Gorth × Option Err

/-- Signed 64-bit bounds of Go `int`. -/
def minI64 : Int := -9223372036854775808

/-- Upper signed 64-bit bound of Go `int`. -/
def maxI64 : Int := 9223372036854775807

/-- Reduction of an integer into the signed 64-bit range, modelling Go's
wrapping `int` arithmetic. -/
def wrap64 (x : Int) : Int :=
  Int.emod (x + 9223372036854775808) 18446744073709551616 - 9223372036854775808

/-- `Push`: fails with a stack overflow when the stack is at capacity,
otherwise appends on top without touching anything else. -/
def Gorth.push (g : Gorth) (v : Elem) : Except Err Gorth :=
  if g.maxStackSize ≤ g.execStack.length then .error .stackOverflow
  else .ok { g with execStack := v :: g.execStack }

/-- A `g.Push(v)` call whose `error` result the source discards (most
operator implementations do this): on overflow the state is unchanged. -/
def Gorth.pushD (g : Gorth) (v : Elem) : Gorth :=
  match g.push v with
  | .ok g' => g'
  | .error _ => g

/-- `Pop`: removes and returns the top element; an empty stack is an error
and leaves the state unchanged. -/
def Gorth.pop (g : Gorth) : Except Err (Elem × Gorth) :=
  match g.execStack with
  | [] => .error .popEmpty
  | v :: rest => .ok (v, { g with execStack := rest })

/-- `Peek`: returns the top element without removing it. -/
def Gorth.peek (g : Gorth) : Except Err Elem :=
  match g.execStack with
  | [] => .error .peekEmpty
  | v :: _ => .ok v

/-- `strconv.Atoi` as the source uses it (`val, _ := strconv.Atoi(part)`):
parses an optionally negated run of digits, clamping to the 64-bit bounds on
range error (the source ignores the error, keeping the clamped value). -/
def goAtoi (l : List Char) : Int :=
  let (neg, digits) := match l with
    | '-' :: rest => (true, rest)
    | _ => (false, l)
  let n : Int := digits.foldl (fun acc c => acc * 10 + (c.toNat - '0'.toNat)) 0
  let v := if neg then -n else n
  if v > maxI64 then maxI64 else if v < minI64 then minI64 else v

/-- The source's integer exponentiation `int(math.Pow(float64(b), float64(e)))`.
float64 rounding and the out-of-range float-to-int conversion are not
modelled: exact integer arithmetic is used, which agrees with the source for
small operands.  No verified claim depends on this function. -/
def goPowII (b e : Int) : Int :=
  if 0 ≤ e then b ^ e.toNat
  else if b = 1 then 1
  else if b = -1 then (if e % 2 = 0 then 1 else -1)
  else 0

/-- Placeholder truth value for a comparison between Go float64 values,
which this development does not model.  No verified claim depends on it. -/
def floatCmpUnmodelled : Bool := false

/-- Go's string repetition loop (`for i := 0; i < num; i++ { concat += str }`):
a non-positive count yields the empty string. -/
def goRepeat (s : String) (n : Int) : String :=
  String.join (List.replicate n.toNat s)

/-- `Add`: pops `val1` then `val2` and dispatches on their type tags exactly
as the source's switch does; all pushes discard the overflow error as the
source does.  In the text case the result is `val1 ++ val2` (the source
concatenates the first-popped string in front of the second-popped one). -/
def Gorth.add (g : Gorth) : EngRes :=
  match g.pop with
  | .error e => (g, some e)
  | .ok (val1, g) =>
    match g.pop with
    | .error e => (g, some e)
    | .ok (val2, g) =>
      match val1, val2 with
      | .eint n1, .eint n2 => (g.pushD (.eint (wrap64 (n1 + n2))), none)
      | .estr s1, .estr s2 => (g.pushD (.estr (s1 ++ s2)), none)
      | .efloat _, .efloat _ => (g.pushD (.efloat .arith), none)
      | .eint _, .efloat _ => (g.pushD (.efloat .arith), none)
      | .efloat _, .eint _ => (g.pushD (.efloat .arith), none)
      | .eident n1, .eident n2 =>
        match vmFind g.varMap n1, vmFind g.varMap n2 with
        | none, _ => (g, some (.varNotDeclared n1))
        | some _, none => (g, some (.varNotDeclared n2))
        | some x1, some x2 =>
          match x1.ty, x2.ty with
          | .int, .int =>
              (g.pushD (.eint (wrap64 (x1.value.getInt + x2.value.getInt))), none)
          | .float, .float => (g.pushD (.efloat .arith), none)
          | .str, .str =>
              (g.pushD (.estr (x1.value.getStr ++ x2.value.getStr)), none)
          | .int, .float => (g.pushD (.efloat .arith), none)
          | .float, .int => (g.pushD (.efloat .arith), none)
          | _, _ => (g, some (.cannotPerform "ADD_OP on different types"))
      | .eident n1, v2 =>
        match vmFind g.varMap n1 with
        | none => (g, some (.varNotDeclared n1))
        | some x1 =>
          match x1.ty, v2 with
          | .int, .eint n2 => (g.pushD (.eint (wrap64 (x1.value.getInt + n2))), none)
          | .float, .efloat _ => (g.pushD (.efloat .arith), none)
          | .str, .estr s2 => (g.pushD (.estr (x1.value.getStr ++ s2)), none)
          | .int, .efloat _ => (g.pushD (.efloat .arith), none)
          | .float, .eint _ => (g.pushD (.efloat .arith), none)
          | _, _ => (g, some (.cannotPerform "ADD_OP on different types"))
      | v1, .eident n2 =>
        match vmFind g.varMap n2 with
        | none => (g, some (.varNotDeclared n2))
        | some x2 =>
          match x2.ty, v1 with
          | .int, .eint n1 => (g.pushD (.eint (wrap64 (x2.value.getInt + n1))), none)
          | .float, .efloat _ => (g.pushD (.efloat .arith), none)
          | .str, .estr s1 => (g.pushD (.estr (x2.value.getStr ++ s1)), none)
          | .int, .efloat _ => (g.pushD (.efloat .arith), none)
          | .float, .eint _ => (g.pushD (.efloat .arith), none)
          | _, _ => (g, some (.cannotPerform "ADD_OP on different types"))
      | _, _ => (g, some (.cannotPerform "ADD_OP on different types"))

/-- `Sub`: integer case computes `val2 - val1` (second-popped minus
first-popped), wrapping as Go `int` does. -/
def Gorth.sub (g : Gorth) : EngRes :=
  match g.pop with
  | .error e => (g, some e)
  | .ok (val1, g) =>
    match g.pop with
    | .error e => (g, some e)
    | .ok (val2, g) =>
      match val1, val2 with
      | .eint n1, .eint n2 => (g.pushD (.eint (wrap64 (n2 - n1))), none)
      | .efloat _, .efloat _ => (g.pushD (.efloat .arith), none)
      | .eint _, .efloat _ => (g.pushD (.efloat .arith), none)
      | .efloat _, .eint _ => (g.pushD (.efloat .arith), none)
      | .eident n1, .eident n2 =>
        match vmFind g.varMap n1, vmFind g.varMap n2 with
        | none, _ => (g, some (.varNotDeclared n1))
        | some _, none => (g, some (.varNotDeclared n2))
        | some x1, some x2 =>
          match x1.ty, x2.ty with
          | .int, .int =>
              (g.pushD (.eint (wrap64 (x2.value.getInt - x1.value.getInt))), none)
          | .float, .float => (g.pushD (.efloat .arith), none)
          | .int, .float => (g.pushD (.efloat .arith), none)
          | .float, .int => (g.pushD (.efloat .arith), none)
          | _, _ => (g, some (.cannotPerform "SUB_OP on different types"))
      | .eident n1, v2 =>
        match vmFind g.varMap n1 with
        | none => (g, some (.varNotDeclared n1))
        | some x1 =>
          match x1.ty, v2 with
          | .int, .eint n2 => (g.pushD (.eint (wrap64 (n2 - x1.value.getInt))), none)
          | .float, .efloat _ => (g.pushD (.efloat .arith), none)
          | .int, .efloat _ => (g.pushD (.efloat .arith), none)
          | .float, .eint _ => (g.pushD (.efloat .arith), none)
          | _, _ => (g, some (.cannotPerform "SUB_OP on different types"))
      | v1, .eident n2 =>
        match vmFind g.varMap n2 with
        | none => (g, some (.varNotDeclared n2))
        | some x2 =>
          match x2.ty, v1 with
          | .int, .eint n1 => (g.pushD (.eint (wrap64 (x2.value.getInt - n1))), none)
          | .float, .efloat _ => (g.pushD (.efloat .arith), none)
          | .int, .efloat _ => (g.pushD (.efloat .arith), none)
          | .float, .eint _ => (g.pushD (.efloat .arith), none)
          | _, _ => (g, some (.cannotPerform "SUB_OP on different types"))
      | _, _ => (g, some (.cannotPerform "SUB_OP on different types"))

/-- `Mul`: integer product wraps; a string times an integer repeats the
string (non-positive count gives the empty string); float results are
opaque. -/
def Gorth.mul (g : Gorth) : EngRes :=
  match g.pop with
  | .error e => (g, some e)
  | .ok (val1, g) =>
    match g.pop with
    | .error e => (g, some e)
    | .ok (val2, g) =>
      match val1, val2 with
      | .eint n1, .eint n2 => (g.pushD (.eint (wrap64 (n1 * n2))), none)
      | .estr s1, .eint n2 => (g.pushD (.estr (goRepeat s1 n2)), none)
      | .eint n1, .estr s2 => (g.pushD (.estr (goRepeat s2 n1)), none)
      | .efloat _, .efloat _ => (g.pushD (.efloat .arith), none)
      | .eint _, .efloat _ => (g.pushD (.efloat .arith), none)
      | .efloat _, .eint _ => (g.pushD (.efloat .arith), none)
      | .eident n1, .eident n2 =>
        match vmFind g.varMap n1, vmFind g.varMap n2 with
        | none, _ => (g, some (.varNotDeclared n1))
        | some _, none => (g, some (.varNotDeclared n2))
        | some x1, some x2 =>
          match x1.ty, x2.ty with
          | .int, .int =>
              (g.pushD (.eint (wrap64 (x1.value.getInt * x2.value.getInt))), none)
          | .float, .float => (g.pushD (.efloat .arith), none)
          | .str, .int =>
              (g.pushD (.estr (goRepeat x1.value.getStr x2.value.getInt)), none)
          | .int, .str =>
              (g.pushD (.estr (goRepeat x2.value.getStr x1.value.getInt)), none)
          | .int, .float => (g.pushD (.efloat .arith), none)
          | .float, .int => (g.pushD (.efloat .arith), none)
          | _, _ => (g, some (.cannotPerform "MUL_OP on different types"))
      | .eident n1, v2 =>
        match vmFind g.varMap n1 with
        | none => (g, some (.varNotDeclared n1))
        | some x1 =>
          match x1.ty, v2 with
          | .int, .eint n2 => (g.pushD (.eint (wrap64 (x1.value.getInt * n2))), none)
          | .float, .efloat _ => (g.pushD (.efloat .arith), none)
          | .str, .eint n2 => (g.pushD (.estr (goRepeat x1.value.getStr n2)), none)
          | .int, .estr s2 => (g.pushD (.estr (goRepeat s2 x1.value.getInt)), none)
          | .int, .efloat _ => (g.pushD (.efloat .arith), none)
          | .float, .eint _ => (g.pushD (.efloat .arith), none)
          | _, _ => (g, some (.cannotPerform "MUL_OP on different types"))
      | v1, .eident n2 =>
        match vmFind g.varMap n2 with
        | none => (g, some (.varNotDeclared n2))
        | some x2 =>
          match x2.ty, v1 with
          | .int, .eint n1 => (g.pushD (.eint (wrap64 (x2.value.getInt * n1))), none)
          | .float, .efloat _ => (g.pushD (.efloat .arith), none)
          | .str, .eint n1 => (g.pushD (.estr (goRepeat x2.value.getStr n1)), none)
          | .int, .estr s1 => (g.pushD (.estr (goRepeat s1 x2.value.getInt)), none)
          | .int, .efloat _ => (g.pushD (.efloat .arith), none)
          | .float, .eint _ => (g.pushD (.efloat .arith), none)
          | _, _ => (g, some (.cannotPerform "MUL_OP on different types"))
      | _, _ => (g, some (.cannotPerform "MUL_OP on different types"))

/-- `Div`: the integer case performs Go division with no zero check, so a
zero divisor is a runtime panic (process abort), not a returned error.  In
the mixed identifier/literal cases the source indexes the variable table
with `val.Value.(string)` on a literal operand, a type-assertion panic
unless that operand is a string. -/
def Gorth.div (g : Gorth) : EngRes :=
  match g.pop with
  | .error e => (g, some e)
  | .ok (val1, g) =>
    match g.pop with
    | .error e => (g, some e)
    | .ok (val2, g) =>
      match val1, val2 with
      | .eint n1, .eint n2 =>
          if n1 = 0 then (g, some (.goPanic "integer divide by zero"))
          else (g.pushD (.eint (wrap64 (Int.tdiv n2 n1))), none)
      | .efloat _, .efloat _ => (g.pushD (.efloat .arith), none)
      | .eint _, .efloat _ => (g.pushD (.efloat .arith), none)
      | .efloat _, .eint _ => (g.pushD (.efloat .arith), none)
      | .eident n1, .eident n2 =>
        match vmFind g.varMap n1, vmFind g.varMap n2 with
        | none, _ => (g, some (.varNotDeclared n1))
        | some _, none => (g, some (.varNotDeclared n2))
        | some x1, some x2 =>
          match x1.ty, x2.ty with
          | .int, .int =>
              if x1.value.getInt = 0 then (g, some (.goPanic "integer divide by zero"))
              else (g.pushD (.eint (wrap64 (Int.tdiv x2.value.getInt x1.value.getInt))), none)
          | .float, .float => (g.pushD (.efloat .arith), none)
          | .int, .float => (g.pushD (.efloat .arith), none)
          | .float, .int => (g.pushD (.efloat .arith), none)
          | _, _ => (g, some (.cannotPerform "DIV_OP on different types"))
      | .eident n1, v2 =>
        match v2 with
        | .estr s2 =>
          match vmFind g.varMap n1, vmFind g.varMap s2 with
          | none, _ => (g, some (.varNotDeclared n1))
          | some _, none => (g, some (.varNotDeclared s2))
          | some _, some _ => (g, some (.cannotPerform "DIV_OP on different types"))
        | _ => (g, some (.goPanic "interface conversion"))
      | v1, .eident n2 =>
        match v1 with
        | .estr s1 =>
          match vmFind g.varMap s1, vmFind g.varMap n2 with
          | none, _ => (g, some (.varNotDeclared s1))
          | some _, none => (g, some (.varNotDeclared n2))
          | some _, some _ => (g, some (.cannotPerform "DIV_OP on different types"))
        | _ => (g, some (.goPanic "interface conversion"))
      | _, _ => (g, some (.cannotPerform "DIV_OP on different types"))

/-- `Mod`: integer-only, with an explicit zero-divisor check returning a
recoverable error.  In the identifier/literal case the zero check asserts
`val1.Value.(int)` on the identifier operand, a runtime panic. -/
def Gorth.mod (g : Gorth) : EngRes :=
  match g.pop with
  | .error e => (g, some e)
  | .ok (val1, g) =>
    match g.pop with
    | .error e => (g, some e)
    | .ok (val2, g) =>
      match val1, val2 with
      | .eint n1, .eint n2 =>
          if n1 = 0 then (g, some .divByZero)
          else (g.pushD (.eint (Int.tmod n2 n1)), none)
      | .eident n1, .eident n2 =>
        match vmFind g.varMap n1, vmFind g.varMap n2 with
        | none, _ => (g, some (.varNotDeclared n1))
        | some _, none => (g, some (.varNotDeclared n2))
        | some x1, some x2 =>
          match x1.ty, x2.ty with
          | .int, .int =>
              if x1.value.getInt = 0 then (g, some .divByZero)
              else (g.pushD (.eint (Int.tmod x2.value.getInt x1.value.getInt)), none)
          | _, _ => (g, some (.cannotPerform "MOD_OP on different types"))
      | .eident n1, v2 =>
        match vmFind g.varMap n1 with
        | none => (g, some (.varNotDeclared n1))
        | some x1 =>
          match x1.ty, v2 with
          | .int, .eint _ => (g, some (.goPanic "interface conversion"))
          | _, _ => (g, some (.cannotPerform "MOD_OP on different types"))
      | _, _ => (g, some (.cannotPerform "MOD_OP on different types"))

/-- `Exp`: the all-integer case truncates a float64 power to `int`
(see `goPowII`); float results are opaque.  In the identifier/literal case
the mixed int/float arms assert the literal operand at the wrong type, a
runtime panic. -/
def Gorth.exp (g : Gorth) : EngRes :=
  match g.pop with
  | .error e => (g, some e)
  | .ok (val1, g) =>
    match g.pop with
    | .error e => (g, some e)
    | .ok (val2, g) =>
      match val1, val2 with
      | .eint n1, .eint n2 => (g.pushD (.eint (goPowII n2 n1)), none)
      | .efloat _, .efloat _ => (g.pushD (.efloat .arith), none)
      | .eint _, .efloat _ => (g.pushD (.efloat .arith), none)
      | .efloat _, .eint _ => (g.pushD (.efloat .arith), none)
      | .eident n1, .eident n2 =>
        match vmFind g.varMap n1, vmFind g.varMap n2 with
        | none, _ => (g, some (.varNotDeclared n1))
        | some _, none => (g, some (.varNotDeclared n2))
        | some x1, some x2 =>
          match x1.ty, x2.ty with
          | .int, .int =>
              (g.pushD (.eint (goPowII x2.value.getInt x1.value.getInt)), none)
          | .float, .float => (g.pushD (.efloat .arith), none)
          | .int, .float => (g.pushD (.efloat .arith), none)
          | .float, .int => (g.pushD (.efloat .arith), none)
          | _, _ => (g, some (.cannotPerform "EXP_OP on different types"))
      | .eident n1, v2 =>
        match vmFind g.varMap n1 with
        | none => (g, some (.varNotDeclared n1))
        | some x1 =>
          match x1.ty, v2 with
          | .int, .eint n2 => (g.pushD (.eint (goPowII n2 x1.value.getInt)), none)
          | .float, .efloat _ => (g.pushD (.efloat .arith), none)
          | .int, .efloat _ => (g, some (.goPanic "interface conversion"))
          | .float, .eint _ => (g, some (.goPanic "interface conversion"))
          | _, _ => (g, some (.cannotPerform "EXP_OP on different types"))
      | v1, .eident n2 =>
        match vmFind g.varMap n2 with
        | none => (g, some (.varNotDeclared n2))
        | some x2 =>
          match x2.ty, v1 with
          | .int, .eint n1 => (g.pushD (.eint (goPowII x2.value.getInt n1)), none)
          | .float, .efloat _ => (g.pushD (.efloat .arith), none)
          | .int, .efloat _ => (g.pushD (.efloat .arith), none)
          | .float, .eint _ => (g.pushD (.efloat .arith), none)
          | _, _ => (g, some (.cannotPerform "EXP_OP on different types"))
      | _, _ => (g, some (.cannotPerform "EXP_OP on different types"))

/-- `Inc`: a literal int/float is popped, incremented and pushed back; an
identifier operand instead mutates the table entry in place and pushes
nothing. -/
def Gorth.inc (g : Gorth) : EngRes :=
  match g.pop with
  | .error e => (g, some e)
  | .ok (val, g) =>
    match val with
    | .eint n => (g.pushD (.eint (wrap64 (n + 1))), none)
    | .efloat _ => (g.pushD (.efloat .arith), none)
    | .eident n =>
      match vmFind g.varMap n with
      | none => (g, some (.varNotDeclared n))
      | some x =>
        match x.ty with
        | .int =>
            ({ g with varMap :=
                vmInsert g.varMap n { x with value := .vint (wrap64 (x.value.getInt + 1)) } },
             none)
        | .float =>
            ({ g with varMap := vmInsert g.varMap n { x with value := .vfloat .arith } },
             none)
        | _ => (g, some (.cannotPerform "INC_OP on different types"))
    | _ => (g, some (.cannotPerform "INC_OP on different types"))

/-- `Dec`: like `Inc` with decrement. -/
def Gorth.dec (g : Gorth) : EngRes :=
  match g.pop with
  | .error e => (g, some e)
  | .ok (val, g) =>
    match val with
    | .eint n => (g.pushD (.eint (wrap64 (n - 1))), none)
    | .efloat _ => (g.pushD (.efloat .arith), none)
    | .eident n =>
      match vmFind g.varMap n with
      | none => (g, some (.varNotDeclared n))
      | some x =>
        match x.ty with
        | .int =>
            ({ g with varMap :=
                vmInsert g.varMap n { x with value := .vint (wrap64 (x.value.getInt - 1)) } },
             none)
        | .float =>
            ({ g with varMap := vmInsert g.varMap n { x with value := .vfloat .arith } },
             none)
        | _ => (g, some (.cannotPerform "DEC_OP on different types"))
    | _ => (g, some (.cannotPerform "DEC_OP on different types"))

/-- `Neg`: negates an int/float, flips a bool; an identifier operand mutates
the table entry in place (int, float or bool kinds; any other kind is an
error). -/
def Gorth.neg (g : Gorth) : EngRes :=
  match g.pop with
  | .error e => (g, some e)
  | .ok (val, g) =>
    match val with
    | .eint n => (g.pushD (.eint (wrap64 (-n))), none)
    | .efloat _ => (g.pushD (.efloat .arith), none)
    | .ebool b => (g.pushD (.ebool (!b)), none)
    | .eident n =>
      match vmFind g.varMap n with
      | none => (g, some (.varNotDeclared n))
      | some x =>
        match x.ty with
        | .int =>
            ({ g with varMap :=
                vmInsert g.varMap n { x with value := .vint (wrap64 (-x.value.getInt)) } },
             none)
        | .float =>
            ({ g with varMap := vmInsert g.varMap n { x with value := .vfloat .arith } },
             none)
        | .bool =>
            ({ g with varMap :=
                vmInsert g.varMap n { x with value := .vbool (!x.value.getBool) } },
             none)
        | _ => (g, some (.cannotPerform "NEG_OP on different types"))
    | _ => (g, some (.cannotPerform "NEG_OP on different types"))

/-- `Swap`: pops two and pushes them back in reverse order (pushes discard
their error, as in the source). -/
def Gorth.swap (g : Gorth) : EngRes :=
  match g.pop with
  | .error e => (g, some e)
  | .ok (val1, g) =>
    match g.pop with
    | .error e => (g, some e)
    | .ok (val2, g) => (((g.pushD val1).pushD val2), none)

/-- `Dup`: peeks the top and pushes a copy; the push's overflow error is
discarded, so on a full stack `Dup` silently does nothing. -/
def Gorth.dup (g : Gorth) : EngRes :=
  match g.peek with
  | .error e => (g, some e)
  | .ok val => (g.pushD val, none)

/-- `Drop`: errors on an empty stack, otherwise pops and discards. -/
def Gorth.drop (g : Gorth) : EngRes :=
  if g.execStack.length < 1 then (g, some .dropEmpty)
  else
    match g.pop with
    | .error _ => (g, none)
    | .ok (_, g) => (g, none)

/-- `Dump`: pops and prints ints, strings, bools, and identifiers (an
identifier's table entry is printed via a defaulting map access, with no
declaredness check); floats and operators are not printable. -/
def Gorth.dump (g : Gorth) : EngRes :=
  match g.pop with
  | .error e => (g, some e)
  | .ok (val, g) =>
    match val with
    | .eint _ => (g, none)
    | .estr _ => (g, none)
    | .ebool _ => (g, none)
    | .eident _ => (g, none)
    | _ => (g, some .notPrintable)

/-- `Print`: peeks (does not pop) and prints ints, strings, bools, floats;
an identifier must be declared; operators are not printable. -/
def Gorth.print (g : Gorth) : EngRes :=
  match g.peek with
  | .error e => (g, some e)
  | .ok val =>
    match val with
    | .eint _ => (g, none)
    | .estr _ => (g, none)
    | .ebool _ => (g, none)
    | .efloat _ => (g, none)
    | .eident n =>
      match vmFind g.varMap n with
      | none => (g, some (.varNotDeclared n))
      | some _ => (g, none)
    | _ => (g, some .notPrintable)

/-- `Rot`: requires three elements; pops `c`, `b`, `a` and pushes `b`, `c`,
`a` back as the source does (each push's error is checked). -/
def Gorth.rot (g : Gorth) : EngRes :=
  if g.execStack.length < 3 then (g, some .rotUnderflow)
  else
    match g.pop with
    | .error e => (g, some e)
    | .ok (val1, g) =>
      match g.pop with
      | .error e => (g, some e)
      | .ok (val2, g) =>
        match g.pop with
        | .error e => (g, some e)
        | .ok (val3, g) =>
          match g.push val2 with
          | .error e => (g, some e)
          | .ok g =>
            match g.push val1 with
            | .error e => (g, some e)
            | .ok g =>
              match g.push val3 with
              | .error e => (g, some e)
              | .ok g => (g, none)

/-- `And`: both operands must be bool or identifier; the very first case of
the source's switch asserts both payloads at `bool`, so a popped identifier
operand (or a `true` first operand with an identifier second) is a runtime
panic before the dedicated identifier branches can run.  The only
panic-free identifier path is a `false` first operand with an identifier
second operand. -/
def Gorth.and (g : Gorth) : EngRes :=
  match g.pop with
  | .error e => (g, some e)
  | .ok (val1, g) =>
    match g.pop with
    | .error e => (g, some e)
    | .ok (val2, g) =>
      if ¬((val1.ty = .bool ∨ val1.ty = .identifier) ∧
           (val2.ty = .bool ∨ val2.ty = .identifier)) then
        (g, some (.cannotPerform "AND_OP on non boolean types"))
      else
        match val1, val2 with
        | .ebool b1, .ebool b2 => (g.pushD (.ebool (b1 && b2)), none)
        | .ebool true, .eident _ => (g, some (.goPanic "interface conversion"))
        | .ebool false, .eident n2 =>
          match vmFind g.varMap n2 with
          | none => (g, some (.varNotDeclared n2))
          | some x2 =>
            match x2.ty with
            | .bool => (g.pushD (.ebool (x2.value.getBool && false)), none)
            | _ => (g, some (.cannotPerform "AND_OP on non boolean types"))
        | _, _ => (g, some (.goPanic "interface conversion"))

/-- `Or`: same gate as `And`; the first switch case short-circuits, so a
`true` first operand succeeds regardless of the second, a `false` first
operand asserts the second at `bool` (panicking on an identifier), and an
identifier first operand always panics. -/
def Gorth.or (g : Gorth) : EngRes :=
  match g.pop with
  | .error e => (g, some e)
  | .ok (val1, g) =>
    match g.pop with
    | .error e => (g, some e)
    | .ok (val2, g) =>
      if ¬((val1.ty = .bool ∨ val1.ty = .identifier) ∧
           (val2.ty = .bool ∨ val2.ty = .identifier)) then
        (g, some (.cannotPerform "OR_OP on non boolean types"))
      else
        match val1, val2 with
        | .ebool true, _ => (g.pushD (.ebool true), none)
        | .ebool false, .ebool b2 => (g.pushD (.ebool b2), none)
        | .ebool false, .eident _ => (g, some (.goPanic "interface conversion"))
        | _, _ => (g, some (.goPanic "interface conversion"))

/-- `Not`: flips a bool; sign-flips an int or float (pushing the result);
an identifier resolves against the table and pushes the flipped value
(nothing at all for a non int/float/bool variable kind); other operand
kinds are an error. -/
def Gorth.not (g : Gorth) : EngRes :=
  match g.pop with
  | .error e => (g, some e)
  | .ok (val1, g) =>
    match val1 with
    | .ebool b => (g.pushD (.ebool (!b)), none)
    | .eint n =>
        if n ≠ 0 then (g.pushD (.eint (wrap64 (n * -1))), none)
        else (g.pushD (.eint 0), none)
    | .efloat _ => (g.pushD (.efloat .arith), none)
    | .eident n =>
      match vmFind g.varMap n with
      | none => (g, some (.varNotDeclared n))
      | some x =>
        match x.ty with
        | .bool => (g.pushD (.ebool (!x.value.getBool)), none)
        | .int => (g.pushD (.eint (wrap64 (x.value.getInt * -1))), none)
        | .float => (g.pushD (.efloat .arith), none)
        | _ => (g, none)
    | _ => (g, some (.cannotPerform "NOT_OP on non boolean types"))

/-- `Equal`: if the popped elements' type tags differ the result is `false`
immediately — before any identifier resolution, so the source's dedicated
identifier/literal branches are dead code.  With equal tags the payloads
are compared (two identifiers resolve through the table; two declared
variables of different kinds compare as `false`; two equal-tag elements of
a kind the switch does not cover, i.e. operators, also compare `false`). -/
def Gorth.equal (g : Gorth) : EngRes :=
  match g.pop with
  | .error e => (g, some e)
  | .ok (val1, g) =>
    match g.pop with
    | .error e => (g, some e)
    | .ok (val2, g) =>
      if val1.ty ≠ val2.ty then (g.pushD (.ebool false), none)
      else
        match val1, val2 with
        | .eint n1, .eint n2 => (g.pushD (.ebool (decide (n1 = n2))), none)
        | .efloat f1, .efloat f2 => (g.pushD (.ebool (decide (f1 = f2))), none)
        | .estr s1, .estr s2 => (g.pushD (.ebool (decide (s1 = s2))), none)
        | .ebool b1, .ebool b2 => (g.pushD (.ebool (decide (b1 = b2))), none)
        | .eident n1, .eident n2 =>
          match vmFind g.varMap n1, vmFind g.varMap n2 with
          | none, _ => (g, some (.varNotDeclared n1))
          | some _, none => (g, some (.varNotDeclared n2))
          | some x1, some x2 =>
            if x1.ty = x2.ty then
              match x1.ty with
              | .int =>
                  (g.pushD (.ebool (decide (x1.value.getInt = x2.value.getInt))), none)
              | .float =>
                  (g.pushD (.ebool (decide (x1.value.getFloat = x2.value.getFloat))), none)
              | .str =>
                  (g.pushD (.ebool (decide (x1.value.getStr = x2.value.getStr))), none)
              | .bool =>
                  (g.pushD (.ebool (decide (x1.value.getBool = x2.value.getBool))), none)
              | _ => (g, none)
            else (g.pushD (.ebool false), none)
        | _, _ => (g.pushD (.ebool false), none)

/-- `NotEqual`: runs `Equal` then `Not`, discarding both errors — a `void`
method in the source, so a failure inside it can never reach the caller. -/
def Gorth.notEqual (g : Gorth) : Gorth :=
  ((g.equal).1.not).1

/-- `EqualType`: equal tags answer `true` outright (covering the two
identifier case, whose dedicated branch is dead code); an identifier
against a literal resolves the variable and compares its kind with the
literal's tag; anything else is `false`. -/
def Gorth.equalType (g : Gorth) : EngRes :=
  match g.pop with
  | .error e => (g, some e)
  | .ok (val1, g) =>
    match g.pop with
    | .error e => (g, some e)
    | .ok (val2, g) =>
      if val1.ty = val2.ty then (g.pushD (.ebool true), none)
      else
        match val1, val2 with
        | .eident n1, v2 =>
          match vmFind g.varMap n1 with
          | none => (g, some (.varNotDeclared n1))
          | some x1 => (g.pushD (.ebool (decide (x1.ty = v2.ty))), none)
        | v1, .eident n2 =>
          match vmFind g.varMap n2 with
          | none => (g, some (.varNotDeclared n2))
          | some x2 => (g.pushD (.ebool (decide (x2.ty = v1.ty))), none)
        | _, _ => (g.pushD (.ebool false), none)

/-- `GreaterThan`: compares second-popped against first-popped.  In the
identifier/literal branch the source indexes the table with
`val2.Value.(string)` although `val2` is the literal, a type-assertion
panic for int and float literals; equal non-numeric kinds push nothing. -/
def Gorth.greaterThan (g : Gorth) : EngRes :=
  match g.pop with
  | .error e => (g, some e)
  | .ok (val1, g) =>
    match g.pop with
    | .error e => (g, some e)
    | .ok (val2, g) =>
      match val1, val2 with
      | .eint n1, .eint n2 => (g.pushD (.ebool (decide (n2 > n1))), none)
      | .efloat _, .efloat _ => (g.pushD (.ebool floatCmpUnmodelled), none)
      | .eint _, .efloat _ => (g.pushD (.ebool floatCmpUnmodelled), none)
      | .efloat _, .eint _ => (g.pushD (.ebool floatCmpUnmodelled), none)
      | .eident n1, .eident n2 =>
        match vmFind g.varMap n1, vmFind g.varMap n2 with
        | none, _ => (g, some (.varNotDeclared n1))
        | some _, none => (g, some (.varNotDeclared n2))
        | some x1, some x2 =>
          if x1.ty = x2.ty then
            match x1.ty with
            | .int => (g.pushD (.ebool (decide (x2.value.getInt > x1.value.getInt))), none)
            | .float => (g.pushD (.ebool floatCmpUnmodelled), none)
            | _ => (g, none)
          else (g, some (.cannotPerform "GT_THAN_OP on different types"))
      | .eident n1, v2 =>
        match vmFind g.varMap n1 with
        | none => (g, some (.varNotDeclared n1))
        | some x1 =>
          if x1.ty = v2.ty then
            match v2.ty with
            | .int => (g, some (.goPanic "interface conversion"))
            | .float => (g, some (.goPanic "interface conversion"))
            | _ => (g, none)
          else (g, some (.cannotPerform "GT_THAN_OP on different types"))
      | v1, .eident n2 =>
        match vmFind g.varMap n2 with
        | none => (g, some (.varNotDeclared n2))
        | some x2 =>
          if x2.ty = v1.ty then
            match v1 with
            | .eint n1 => (g.pushD (.ebool (decide (x2.value.getInt > n1))), none)
            | .efloat _ => (g.pushD (.ebool floatCmpUnmodelled), none)
            | _ => (g, none)
          else (g, some (.cannotPerform "GT_THAN_OP on different types"))
      | _, _ => (g, some (.cannotPerform "GT_THAN_OP on different types"))

/-- `LessThan`: mirror image of `GreaterThan` (same panic in the
identifier/literal branch). -/
def Gorth.lessThan (g : Gorth) : EngRes :=
  match g.pop with
  | .error e => (g, some e)
  | .ok (val1, g) =>
    match g.pop with
    | .error e => (g, some e)
    | .ok (val2, g) =>
      match val1, val2 with
      | .eint n1, .eint n2 => (g.pushD (.ebool (decide (n2 < n1))), none)
      | .efloat _, .efloat _ => (g.pushD (.ebool floatCmpUnmodelled), none)
      | .eint _, .efloat _ => (g.pushD (.ebool floatCmpUnmodelled), none)
      | .efloat _, .eint _ => (g.pushD (.ebool floatCmpUnmodelled), none)
      | .eident n1, .eident n2 =>
        match vmFind g.varMap n1, vmFind g.varMap n2 with
        | none, _ => (g, some (.varNotDeclared n1))
        | some _, none => (g, some (.varNotDeclared n2))
        | some x1, some x2 =>
          if x1.ty = x2.ty then
            match x1.ty with
            | .int => (g.pushD (.ebool (decide (x2.value.getInt < x1.value.getInt))), none)
            | .float => (g.pushD (.ebool floatCmpUnmodelled), none)
            | _ => (g, none)
          else (g, some (.cannotPerform "LS_THAN_OP on different types"))
      | .eident n1, v2 =>
        match vmFind g.varMap n1 with
        | none => (g, some (.varNotDeclared n1))
        | some x1 =>
          if x1.ty = v2.ty then
            match v2.ty with
            | .int => (g, some (.goPanic "interface conversion"))
            | .float => (g, some (.goPanic "interface conversion"))
            | _ => (g, none)
          else (g, some (.cannotPerform "LS_THAN_OP on different types"))
      | v1, .eident n2 =>
        match vmFind g.varMap n2 with
        | none => (g, some (.varNotDeclared n2))
        | some x2 =>
          if x2.ty = v1.ty then
            match v1 with
            | .eint n1 => (g.pushD (.ebool (decide (x2.value.getInt < n1))), none)
            | .efloat _ => (g.pushD (.ebool floatCmpUnmodelled), none)
            | _ => (g, none)
          else (g, some (.cannotPerform "LS_THAN_OP on different types"))
      | _, _ => (g, some (.cannotPerform "LS_THAN_OP on different types"))

/-- `GreaterThanEqual`: like `GreaterThan` with `>=`. -/
def Gorth.greaterThanEqual (g : Gorth) : EngRes :=
  match g.pop with
  | .error e => (g, some e)
  | .ok (val1, g) =>
    match g.pop with
    | .error e => (g, some e)
    | .ok (val2, g) =>
      match val1, val2 with
      | .eint n1, .eint n2 => (g.pushD (.ebool (decide (n2 ≥ n1))), none)
      | .efloat _, .efloat _ => (g.pushD (.ebool floatCmpUnmodelled), none)
      | .eint _, .efloat _ => (g.pushD (.ebool floatCmpUnmodelled), none)
      | .efloat _, .eint _ => (g.pushD (.ebool floatCmpUnmodelled), none)
      | .eident n1, .eident n2 =>
        match vmFind g.varMap n1, vmFind g.varMap n2 with
        | none, _ => (g, some (.varNotDeclared n1))
        | some _, none => (g, some (.varNotDeclared n2))
        | some x1, some x2 =>
          if x1.ty = x2.ty then
            match x1.ty with
            | .int => (g.pushD (.ebool (decide (x2.value.getInt ≥ x1.value.getInt))), none)
            | .float => (g.pushD (.ebool floatCmpUnmodelled), none)
            | _ => (g, none)
          else (g, some (.cannotPerform "GT_THAN_EQ_OP on different types"))
      | .eident n1, v2 =>
        match vmFind g.varMap n1 with
        | none => (g, some (.varNotDeclared n1))
        | some x1 =>
          if x1.ty = v2.ty then
            match v2.ty with
            | .int => (g, some (.goPanic "interface conversion"))
            | .float => (g, some (.goPanic "interface conversion"))
            | _ => (g, none)
          else (g, some (.cannotPerform "GT_THAN_EQ_OP on different types"))
      | v1, .eident n2 =>
        match vmFind g.varMap n2 with
        | none => (g, some (.varNotDeclared n2))
        | some x2 =>
          if x2.ty = v1.ty then
            match v1 with
            | .eint n1 => (g.pushD (.ebool (decide (x2.value.getInt ≥ n1))), none)
            | .efloat _ => (g.pushD (.ebool floatCmpUnmodelled), none)
            | _ => (g, none)
          else (g, some (.cannotPerform "GT_THAN_EQ_OP on different types"))
      | _, _ => (g, some (.cannotPerform "GT_THAN_EQ_OP on different types"))

/-- `LessThanEqual`: like `LessThan` with `<=` (the source's identifier
branches report the copy-pasted `GT_THAN_EQ_OP` message; only the final
default says `LS_THAN_EQ_OP`). -/
def Gorth.lessThanEqual (g : Gorth) : EngRes :=
  match g.pop with
  | .error e => (g, some e)
  | .ok (val1, g) =>
    match g.pop with
    | .error e => (g, some e)
    | .ok (val2, g) =>
      match val1, val2 with
      | .eint n1, .eint n2 => (g.pushD (.ebool (decide (n2 ≤ n1))), none)
      | .efloat _, .efloat _ => (g.pushD (.ebool floatCmpUnmodelled), none)
      | .eint _, .efloat _ => (g.pushD (.ebool floatCmpUnmodelled), none)
      | .efloat _, .eint _ => (g.pushD (.ebool floatCmpUnmodelled), none)
      | .eident n1, .eident n2 =>
        match vmFind g.varMap n1, vmFind g.varMap n2 with
        | none, _ => (g, some (.varNotDeclared n1))
        | some _, none => (g, some (.varNotDeclared n2))
        | some x1, some x2 =>
          if x1.ty = x2.ty then
            match x1.ty with
            | .int => (g.pushD (.ebool (decide (x2.value.getInt ≤ x1.value.getInt))), none)
            | .float => (g.pushD (.ebool floatCmpUnmodelled), none)
            | _ => (g, none)
          else (g, some (.cannotPerform "GT_THAN_EQ_OP on different types"))
      | .eident n1, v2 =>
        match vmFind g.varMap n1 with
        | none => (g, some (.varNotDeclared n1))
        | some x1 =>
          if x1.ty = v2.ty then
            match v2.ty with
            | .int => (g, some (.goPanic "interface conversion"))
            | .float => (g, some (.goPanic "interface conversion"))
            | _ => (g, none)
          else (g, some (.cannotPerform "GT_THAN_EQ_OP on different types"))
      | v1, .eident n2 =>
        match vmFind g.varMap n2 with
        | none => (g, some (.varNotDeclared n2))
        | some x2 =>
          if x2.ty = v1.ty then
            match v1 with
            | .eint n1 => (g.pushD (.ebool (decide (x2.value.getInt ≤ n1))), none)
            | .efloat _ => (g.pushD (.ebool floatCmpUnmodelled), none)
            | _ => (g, none)
          else (g, some (.cannotPerform "GT_THAN_EQ_OP on different types"))
      | _, _ => (g, some (.cannotPerform "LS_THAN_EQ_OP on different types"))

/-- `VarAssign`: pops the new value first, then the target, which must be an
`Identifier`; checks declaredness, then constness, then that the new
value's kind matches the variable's established kind, and finally replaces
the table entry (with `Const` reset to false, as the source does). -/
def Gorth.varAssign (g : Gorth) : EngRes :=
  match g.pop with
  | .error _ => (g, some .assignEmpty)
  | .ok (val1, g) =>
    match g.pop with
    | .error _ => (g, some .assignEmpty)
    | .ok (val2, g) =>
      match val2 with
      | .eident name =>
        match vmFind g.varMap name with
        | none => (g, some (.varNotDeclaredAssign name))
        | some x =>
          if x.isConst then (g, some (.constReassign name))
          else
            match x.ty with
            | .int =>
              match val1 with
              | .eint n =>
                  ({ g with varMap := vmInsert g.varMap name ⟨.int, .vint n, name, false⟩ },
                   none)
              | _ => (g, some (.assignTypeMismatch .int))
            | .float =>
              match val1 with
              | .efloat f =>
                  ({ g with varMap := vmInsert g.varMap name ⟨.float, .vfloat f, name, false⟩ },
                   none)
              | _ => (g, some (.assignTypeMismatch .float))
            | .bool =>
              match val1 with
              | .ebool b =>
                  ({ g with varMap := vmInsert g.varMap name ⟨.bool, .vbool b, name, false⟩ },
                   none)
              | _ => (g, some (.assignTypeMismatch .bool))
            | .str =>
              match val1 with
              | .estr s =>
                  ({ g with varMap := vmInsert g.varMap name ⟨.str, .vstr s, name, false⟩ },
                   none)
              | _ => (g, some (.assignTypeMismatch .str))
            | _ => (g, some .assignNonVariable)
      | _ => (g, some .assignNonVariable)

/-- The operator dispatch of `ExecuteProgram`: each case runs an operator
implementation and propagates its error — except `NOT_EQUAL_OP`, whose
implementation has no error to propagate. -/
def Gorth.execOp (g : Gorth) (o : Op) : EngRes :=
  match o with
  | .add => g.add
  | .sub => g.sub
  | .mul => g.mul
  | .div => g.div
  | .mod => g.mod
  | .exp => g.exp
  | .inc => g.inc
  | .dec => g.dec
  | .swap => g.swap
  | .dup => g.dup
  | .drop => g.drop
  | .dump => g.dump
  | .print => g.print
  | .and => g.and
  | .or => g.or
  | .not => g.not
  | .equal => g.equal
  | .notEqual => (g.notEqual, none)
  | .equalTyp => g.equalType
  | .gtThan => g.greaterThan
  | .lsThan => g.lessThan
  | .gtThanEq => g.greaterThanEqual
  | .lsThanEq => g.lessThanEqual
  | .rot => g.rot
  | .varAssign => g.varAssign

/-- One iteration of the `ExecuteProgram` loop: an operator token is
dispatched, any other token is pushed (propagating the push's error). -/
def Gorth.execToken (g : Gorth) (t : Elem) : EngRes :=
  match t with
  | .eop o => g.execOp o
  | v =>
    match g.push v with
    | .ok g' => (g', none)
    | .error e => (g, some e)

/-- The `ExecuteProgram` loop over the token sequence: the first token whose
step reports an error ends the run with that error. -/
def Gorth.execTokens (g : Gorth) : List Elem → EngRes
  | [] => (g, none)
  | t :: ts =>
    match g.execToken t with
    | (g', none) => g'.execTokens ts
    | (g', some e) => (g', some e)

/-- `ExecuteProgram`: runs the loop, then in strict mode fails with the
unconsumed-stack error (reporting the leftover contents in the source's
bottom-first slice order) when the stack is non-empty. -/
def Gorth.executeProgram (g : Gorth) (program : List Elem) : EngRes :=
  match g.execTokens program with
  | (g', some e) => (g', some e)
  | (g', none) =>
    if g'.strictMode ∧ g'.execStack ≠ [] then
      (g', some (.unconsumedStack g'.execStack.reverse))
    else (g', none)

/-- The integer-literal pattern (optional leading minus, then digits). -/
def isIntChars (l : List Char) : Bool :=
  match l with
  | '-' :: rest => rest ≠ [] && rest.all Char.isDigit
  | _ => l ≠ [] && l.all Char.isDigit

/-- The float-literal pattern (optional minus, digits, a dot, digits). -/
def isFloatChars (l : List Char) : Bool :=
  let body := match l with
    | '-' :: rest => rest
    | _ => l
  let a := body.takeWhile (· ≠ '.')
  match body.dropWhile (· ≠ '.') with
  | '.' :: frac => a ≠ [] && a.all Char.isDigit && frac ≠ [] && frac.all Char.isDigit
  | _ => false

/-- The quoted-string pattern (a leading and a trailing double quote). -/
def isStrChars (l : List Char) : Bool :=
  match l with
  | '"' :: rest => rest ≠ [] && rest.getLast? = some '"'
  | _ => false

/-- The boolean-literal pattern (exactly `true` or `false`). -/
def isBoolChars (l : List Char) : Bool :=
  l = "true".data || l = "false".data

/-- The operator alternatives of the source's `operatorRegex` (note `neg`
is accepted by the regex although `operatorMap` has no entry for it). -/
def opStrs : List String :=
  ["+", "-", "*", "/", "%", "^", "++", "--", "neg", "swap", "dup", "drop",
   "dump", "print", "rot", "&&", "||", "!", "==", "!=", "===", ">", "<",
   ">=", "<=", "="]

/-- Membership in the operator vocabulary. -/
def isOpChars (l : List Char) : Bool :=
  opStrs.any (fun s => l = s.data)

/-- `operatorMap[s]`: a Go map lookup yielding the zero value `ADD_OP` for a
missing key (which happens for `neg`, accepted by the regex but absent from
the map). -/
def opMapLookup (l : List Char) : Op :=
  if l = "+".data then .add
  else if l = "-".data then .sub
  else if l = "*".data then .mul
  else if l = "/".data then .div
  else if l = "%".data then .mod
  else if l = "^".data then .exp
  else if l = "++".data then .inc
  else if l = "--".data then .dec
  else if l = "swap".data then .swap
  else if l = "dup".data then .dup
  else if l = "drop".data then .drop
  else if l = "dump".data then .dump
  else if l = "print".data then .print
  else if l = "rot".data then .rot
  else if l = "&&".data then .and
  else if l = "||".data then .or
  else if l = "!".data then .not
  else if l = "==".data then .equal
  else if l = "!=".data then .notEqual
  else if l = "===".data then .equalTyp
  else if l = ">".data then .gtThan
  else if l = "<".data then .lsThan
  else if l = ">=".data then .gtThanEq
  else if l = "<=".data then .lsThanEq
  else if l = "=".data then .varAssign
  else .add

/-- The keyword pattern (`def`, `const` or `=`). -/
def isKeywordChars (l : List Char) : Bool :=
  l = "def".data || l = "const".data || l = "=".data

/-- The declaration pattern `/name` (a slash, a letter or underscore, then
letters, digits or underscores). -/
def isVarNameChars (l : List Char) : Bool :=
  match l with
  | '/' :: c :: rest =>
      (c.isAlpha || c = '_') && rest.all (fun d => d.isAlphanum || d = '_')
  | _ => false

/-- The usage pattern `_name`. -/
def isVarUsageChars (l : List Char) : Bool :=
  match l with
  | '_' :: c :: rest =>
      (c.isAlpha || c = '_') && rest.all (fun d => d.isAlphanum || d = '_')
  | _ => false

/-- `strings.Trim(part, quote)`: removes every leading and trailing double
quote. -/
def trimQuotes (l : List Char) : List Char :=
  ((l.dropWhile (fun c => c = '"')).reverse.dropWhile (fun c => c = '"')).reverse

/-- The splitter regex of the source, matching quoted spans as single units
and any other run of non-whitespace as a unit.  Each step consumes at least
one character, so `length` fuel never runs out; the explicit fuel keeps the
definition structurally recursive and kernel-reducible. -/
def splitUnitsFuel : Nat → List Char → List (List Char)
  | 0, _ => []
  | _, [] => []
  | fuel + 1, c :: cs =>
    if c.isWhitespace then splitUnitsFuel fuel cs
    else if c = '"' && cs.contains '"' then
      ('"' :: (cs.takeWhile (· ≠ '"') ++ ['"'])) ::
        splitUnitsFuel fuel ((cs.dropWhile (· ≠ '"')).drop 1)
    else
      (c :: cs.takeWhile (fun d => !d.isWhitespace)) ::
        splitUnitsFuel fuel (cs.dropWhile (fun d => !d.isWhitespace))

/-- Splits the program text into lexical units. -/
def splitUnits (l : List Char) : List (List Char) :=
  splitUnitsFuel l.length l

/-- The two lexer states of the source's tokeniser state machine. -/
inductive LexMode where
  | normal
  | varDecl
deriving DecidableEq

/-- The mutable state threaded through the `Tokenize` loop: the emitted
tokens, the variable table built so far, the `lastAddedVariable`, and the
state-machine mode. -/
structure TokState where
  tokens : List Elem
  vars : VarMap
  lastAdded : Variable
  mode : LexMode
deriving DecidableEq

/-- The state at the start of `Tokenize` (`lastAddedVariable` is the Go
zero value). -/
def initTokState : TokState := ⟨[], [], Variable.zero, .normal⟩

/-- The `StateNormal` handler: classifies a unit as integer, float, string,
boolean, operator, keyword or variable usage, in the source's order.  Only
`def` and `const` reach the keyword branch (`=` is matched as an operator
first); `const` marks the `lastAddedVariable` const and writes it back —
even when no declaration has happened yet, in which case the zero-valued
variable is stored under the empty name, as in the source. -/
def handleNormal (part : List Char) (st : TokState) : Except Err TokState :=
  if isIntChars part then
    .ok { st with tokens := st.tokens ++ [.eint (goAtoi part)] }
  else if isFloatChars part then
    .ok { st with tokens := st.tokens ++ [.efloat (.lit ⟨part⟩)] }
  else if isStrChars part then
    .ok { st with tokens := st.tokens ++ [.estr ⟨trimQuotes part⟩] }
  else if isBoolChars part then
    .ok { st with tokens := st.tokens ++ [.ebool (part = "true".data)] }
  else if isOpChars part then
    .ok { st with tokens := st.tokens ++ [.eop (opMapLookup part)] }
  else if isKeywordChars part then
    if part = "const".data then
      let la := { st.lastAdded with isConst := true }
      .ok { st with lastAdded := la, vars := vmInsert st.vars la.name la }
    else .ok st
  else if isVarUsageChars part then
    let name : String := ⟨part.drop 1⟩
    match vmFind st.vars name with
    | none => .error (.varNotDeclared name)
    | some v => .ok { st with tokens := st.tokens ++ [.eident v.name] }
  else .error (.invalidToken ⟨part⟩)

/-- The `StateVarDeclaration` handler: consumes the unit after `/name` as
the declared variable's first value (or, for an operator unit, just emits
the operator), then returns to the normal state. -/
def handleDecl (part : List Char) (st : TokState) : Except Err TokState :=
  if st.vars.length > 0 then
    if isOpChars part then
      .ok { st with tokens := st.tokens ++ [.eop (opMapLookup part)], mode := .normal }
    else if isIntChars part then
      let la := { st.lastAdded with ty := Ty.int, value := VVal.vint (goAtoi part) }
      .ok { st with tokens := st.tokens ++ [.eident la.name],
                    vars := vmInsert st.vars la.name la, lastAdded := la, mode := .normal }
    else if isFloatChars part then
      let la := { st.lastAdded with ty := Ty.float, value := VVal.vfloat (.lit ⟨part⟩) }
      .ok { st with tokens := st.tokens ++ [.eident la.name],
                    vars := vmInsert st.vars la.name la, lastAdded := la, mode := .normal }
    else if isStrChars part then
      let la := { st.lastAdded with ty := Ty.str, value := VVal.vstr ⟨trimQuotes part⟩ }
      .ok { st with tokens := st.tokens ++ [.eident la.name],
                    vars := vmInsert st.vars la.name la, lastAdded := la, mode := .normal }
    else if isBoolChars part then
      let la := { st.lastAdded with ty := Ty.bool, value := VVal.vbool (part = "true".data) }
      .ok { st with tokens := st.tokens ++ [.eident la.name],
                    vars := vmInsert st.vars la.name la, lastAdded := la, mode := .normal }
    else .error (.invalidDeclValue ⟨part⟩)
  else .ok { st with mode := .normal }

/-- The main loop of `Tokenize`.  Each unit is first checked verbatim
against the table's keys (the redeclaration error of the source); a `/name`
unit whose name is already declared is skipped silently; a fresh `/name`
enters the declaration state; anything else goes to the current state's
handler, and the first handler error aborts the whole lex. -/
def tokenizeLoop : List (List Char) → TokState → Except Err (List Elem × VarMap)
  | [], st => .ok (st.tokens, st.vars)
  | part :: rest, st =>
    if (vmFind st.vars ⟨part⟩).isSome then .error (.varAlreadyDeclared ⟨part⟩)
    else if isVarNameChars part then
      let name : String := ⟨part.drop 1⟩
      if (vmFind st.vars name).isSome then tokenizeLoop rest st
      else
        let v : Variable := ⟨.identifier, .vnone, name, false⟩
        tokenizeLoop rest
          { st with vars := vmInsert st.vars name v, lastAdded := v, mode := .varDecl }
    else
      match st.mode with
      | .normal =>
        match handleNormal part st with
        | .error e => .error e
        | .ok st' => tokenizeLoop rest st'
      | .varDecl =>
        match handleDecl part st with
        | .error e => .error e
        | .ok st' => tokenizeLoop rest st'

/-- `Tokenize`: splits the raw text and runs the state machine, yielding the
token sequence and the variable table, or the first error. -/
def tokenize (s : String) : Except Err (List Elem × VarMap) :=
  tokenizeLoop (splitUnits s.data) initTokState

/-- A value already in the signed 64-bit range is unchanged by `wrap64`. -/
theorem wrap64_eq_self (x : Int) (hlo : minI64 ≤ x) (hhi : x ≤ maxI64) :
    wrap64 x = x := by
  unfold wrap64
  unfold minI64 at hlo
  unfold maxI64 at hhi
  have h0 : Int.emod (x + 9223372036854775808) 18446744073709551616 =
      x + 9223372036854775808 :=
    Int.emod_eq_of_lt (by omega) (by omega)
  rw [h0]
  omega

/-- Looking up the freshly inserted key. -/
theorem vmFind_insert_self (m : VarMap) (k : String) (v : Variable) :
    vmFind (vmInsert m k v) k = some v := by
  induction m with
  | nil => simp [vmInsert, vmFind]
  | cons hd tl ih =>
    obtain ⟨k', v'⟩ := hd
    by_cases hk : k' = k
    · simp [vmInsert, hk, vmFind]
    · simp [vmInsert, hk, vmFind, ih]

/-- Inserting one key leaves every other key's lookup unchanged. -/
theorem vmFind_insert_ne (m : VarMap) (k k' : String) (v : Variable)
    (h : k' ≠ k) : vmFind (vmInsert m k v) k' = vmFind m k' := by
  induction m with
  | nil => simp [vmInsert, vmFind, Ne.symm h]
  | cons hd tl ih =>
    obtain ⟨k₀, v₀⟩ := hd
    by_cases hk : k₀ = k
    · subst hk
      simp [vmInsert, vmFind, Ne.symm h]
    · simp [vmInsert, hk, vmFind, ih]

/-- C1 counterexample: the claim promises the single integer `a - b` for all
64-bit integers, but at `a = -2^63`, `b = 1` the engine leaves `2^63 - 1`
(Go `int` subtraction wraps), which is not `a - b`. -/
theorem C1_sub_counterexample :
    (mkGorth [] false false).executeProgram
      [.eint (-9223372036854775808), .eint 1, .eop .sub] =
      (⟨[.eint 9223372036854775807], [], false, false, MAX_STACK_SIZE⟩, none)
    ∧ (9223372036854775807 : Int) ≠ -9223372036854775808 - 1 := by
  exact ⟨by rfl, by decide⟩

/-- C1 as amended: for 64-bit integers `a`, `b` whose difference also fits
in 64 bits, running `[Literal a, Literal b, Sub]` on a fresh non-strict
engine succeeds and leaves exactly `a - b` (second-popped minus
first-popped); and `5 dup -` leaves exactly `0`. -/
theorem C1_sub_amended (a b : Int)
    (ha₁ : minI64 ≤ a) (ha₂ : a ≤ maxI64) (hb₁ : minI64 ≤ b) (hb₂ : b ≤ maxI64)
    (hd₁ : minI64 ≤ a - b) (hd₂ : a - b ≤ maxI64) :
    (mkGorth [] false false).executeProgram [.eint a, .eint b, .eop .sub] =
      (⟨[.eint (a - b)], [], false, false, MAX_STACK_SIZE⟩, none)
    ∧ (mkGorth [] false false).executeProgram [.eint 5, .eop .dup, .eop .sub] =
      (⟨[.eint 0], [], false, false, MAX_STACK_SIZE⟩, none) := by
  refine ⟨?_, by rfl⟩
  have hw : wrap64 (a - b) = a - b := wrap64_eq_self _ hd₁ hd₂
  simp [mkGorth, Gorth.executeProgram, Gorth.execTokens, Gorth.execToken, Gorth.execOp,
        Gorth.sub, Gorth.pop, Gorth.push, Gorth.pushD, MAX_STACK_SIZE, hw]

/-- Witness for C1's amended theorem at `a = 5`, `b = 3`. -/
theorem C1_sub_amended_witness :
    (mkGorth [] false false).executeProgram [.eint 5, .eint 3, .eop .sub] =
      (⟨[.eint 2], [], false, false, MAX_STACK_SIZE⟩, none) :=
  (C1_sub_amended 5 3 (by decide) (by decide) (by decide) (by decide)
    (by decide) (by decide)).1

/-- C2: with a successful token loop, strict mode plus a non-empty final
stack yields the unconsumed-stack error carrying the leftover contents (in
the source's bottom-first order), while non-strict mode reports success;
in particular `1 2` fails with `[1, 2]` under strict mode and succeeds
under non-strict mode. -/
theorem C2_unconsumed_strict (g : Gorth) (prog : List Elem) (g' : Gorth)
    (h : g.execTokens prog = (g', none)) :
    (g'.strictMode = true → g'.execStack ≠ [] →
      g.executeProgram prog = (g', some (.unconsumedStack g'.execStack.reverse)))
    ∧ (g'.strictMode = false → g.executeProgram prog = (g', none))
    ∧ (mkGorth [] false true).executeProgram [.eint 1, .eint 2] =
        (⟨[.eint 2, .eint 1], [], false, true, MAX_STACK_SIZE⟩,
         some (.unconsumedStack [.eint 1, .eint 2]))
    ∧ (mkGorth [] false false).executeProgram [.eint 1, .eint 2] =
        (⟨[.eint 2, .eint 1], [], false, false, MAX_STACK_SIZE⟩, none) := by
  refine ⟨?_, ?_, by rfl, by rfl⟩
  · intro hs hne
    simp [Gorth.executeProgram, h, hs, hne]
  · intro hs
    simp [Gorth.executeProgram, h, hs]

/-- Witness for C2 on the strict `1 2` run itself. -/
theorem C2_unconsumed_strict_witness :
    (mkGorth [] false true).executeProgram [.eint 1, .eint 2] =
      (⟨[.eint 2, .eint 1], [], false, true, MAX_STACK_SIZE⟩,
       some (.unconsumedStack [.eint 1, .eint 2])) :=
  ((C2_unconsumed_strict (mkGorth [] false true) [.eint 1, .eint 2]
      ⟨[.eint 2, .eint 1], [], false, true, MAX_STACK_SIZE⟩ (by rfl)).2.2).1

/-- C4: adding two text literals concatenates the first-popped text in
front of the second-popped one, so the program `a b +` leaves exactly the
text `b ++ a`; in particular the spec's scenario B. -/
theorem C4_add_text (s t : String) :
    (mkGorth [] false false).executeProgram [.estr s, .estr t, .eop .add] =
      (⟨[.estr (t ++ s)], [], false, false, MAX_STACK_SIZE⟩, none)
    ∧ (mkGorth [] false false).executeProgram
        [.estr "Hello, ", .estr "World!", .eop .add] =
      (⟨[.estr "World!Hello, "], [], false, false, MAX_STACK_SIZE⟩, none) := by
  refine ⟨?_, by rfl⟩
  simp [mkGorth, Gorth.executeProgram, Gorth.execTokens, Gorth.execToken, Gorth.execOp,
        Gorth.add, Gorth.pop, Gorth.push, Gorth.pushD, MAX_STACK_SIZE]

/-- C5: the claim (and the spec) require a structured `DivisionByZero`
failure, but `Div` has no zero check: on the program `10 0 /` the source
executes Go integer division by zero, a runtime panic that aborts the
process (modelled by `Err.goPanic`), not a recoverable error — unlike
`Mod`, which checks and returns the divide-by-zero error. -/
theorem C5_div_zero_panics :
    (mkGorth [] false false).executeProgram [.eint 10, .eint 0, .eop .div] =
      (⟨[], [], false, false, MAX_STACK_SIZE⟩, some (.goPanic "integer divide by zero"))
    ∧ (mkGorth [] false false).executeProgram [.eint 10, .eint 0, .eop .mod] =
      (⟨[], [], false, false, MAX_STACK_SIZE⟩, some .divByZero) := by
  exact ⟨by rfl, by rfl⟩

/-- C8 counterexample: the input `/x 1 /x 2` redeclares `x`, yet lexing
succeeds — the second `/x` is silently skipped, no redeclaration error is
raised, and tokens and table are returned. -/
theorem C8_redeclaration_counterexample :
    tokenize "/x 1 /x 2" =
      .ok ([.eident "x", .eint 2], [("x", ⟨.int, .vint 1, "x", false⟩)]) := by
  rfl

/-- C8 as amended: a `/name` declaration unit whose `name` is already a key
of the table built so far is skipped silently — no token, no table change,
no error — and lexing continues; the lexer's redeclaration-style error
fires instead when a unit textually equal to an existing key (a bare
variable name) occurs. -/
theorem C8_redeclaration_amended :
    (∀ (st : TokState) (u : List Char) (rest : List (List Char)),
        isVarNameChars u = true →
        vmFind st.vars (⟨u⟩ : String) = none →
        (vmFind st.vars (⟨u.drop 1⟩ : String)).isSome = true →
        tokenizeLoop (u :: rest) st = tokenizeLoop rest st)
    ∧ (∀ (part : List Char) (rest : List (List Char)) (st : TokState),
        (vmFind st.vars (⟨part⟩ : String)).isSome = true →
        tokenizeLoop (part :: rest) st = .error (.varAlreadyDeclared ⟨part⟩)) := by
  constructor
  · intro st u rest hname hfull hdecl
    rw [List.drop_one] at hdecl
    simp [tokenizeLoop, hname, hfull, hdecl]
  · intro part rest st h
    simp [tokenizeLoop, h]

/-- Witness for C8's amended theorem: with `x` already declared, `/x` is
skipped, while a bare `x` unit raises the already-declared error. -/
theorem C8_redeclaration_amended_witness :
    (tokenizeLoop ["/x".data] ⟨[], [("x", ⟨.int, .vint 1, "x", false⟩)], Variable.zero, .normal⟩ =
      tokenizeLoop [] ⟨[], [("x", ⟨.int, .vint 1, "x", false⟩)], Variable.zero, .normal⟩)
    ∧ (tokenizeLoop ["x".data] ⟨[], [("x", ⟨.int, .vint 1, "x", false⟩)], Variable.zero, .normal⟩ =
      .error (.varAlreadyDeclared "x")) :=
  ⟨C8_redeclaration_amended.1 _ "/x".data [] (by decide) (by decide) (by decide),
   C8_redeclaration_amended.2 "x".data [] _ (by decide)⟩

/-- C9 counterexample: `NotEqual` on an empty stack underflows internally,
but its errors are discarded and execution continues to the next token and
reports success — the claim's promised abort with the specific error never
happens. -/
theorem C9_notEqual_counterexample :
    (mkGorth [] false false).executeProgram [.eop .notEqual, .eint 7] =
      (⟨[.eint 7], [], false, false, MAX_STACK_SIZE⟩, none) := by
  rfl

/-- C9 as amended: the first token whose step reports an error aborts the
run with exactly that error — but the `NotEqual` step can never report one:
its implementation discards the errors of its constituent `Equal` and
`Not`, so underflow inside `NotEqual` is silently swallowed. -/
theorem C9_first_error_aborts_amended :
    (∀ (g g' : Gorth) (t : Elem) (ts : List Elem) (e : Err),
        g.execToken t = (g', some e) →
        g.execTokens (t :: ts) = (g', some e)
        ∧ g.executeProgram (t :: ts) = (g', some e))
    ∧ (∀ g : Gorth, (g.execToken (.eop .notEqual)).2 = none) := by
  constructor
  · intro g g' t ts e h
    constructor
    · simp [Gorth.execTokens, h]
    · simp [Gorth.executeProgram, Gorth.execTokens, h]
  · intro g
    rfl

/-- Witness for C9's amended theorem: a failing `Sub` on an empty stack
aborts the run immediately with the underflow error. -/
theorem C9_first_error_aborts_amended_witness :
    (mkGorth [] false false).execTokens [.eop .sub, .eint 7] =
      (mkGorth [] false false, some .popEmpty)
    ∧ (mkGorth [] false false).executeProgram [.eop .sub, .eint 7] =
      (mkGorth [] false false, some .popEmpty) :=
  C9_first_error_aborts_amended.1 (mkGorth [] false false) (mkGorth [] false false)
    (.eop .sub) [.eint 7] .popEmpty (by rfl)

/-- C6 counterexample: running the claim's own scenario `/x 10 def _x ++`
end to end, variable `x` does become 11, but the operand stack does not
end empty — the declaration itself emitted an `Identifier` token, whose
pushed copy survives because `Inc` pops only one. -/
theorem C6_inc_counterexample :
    tokenize "/x 10 def _x ++" =
      .ok ([.eident "x", .eident "x", .eop .inc], [("x", ⟨.int, .vint 10, "x", false⟩)])
    ∧ (mkGorth [("x", ⟨.int, .vint 10, "x", false⟩)] false false).executeProgram
        [.eident "x", .eident "x", .eop .inc] =
      (⟨[.eident "x"], [("x", ⟨.int, .vint 11, "x", false⟩)], false, false,
        MAX_STACK_SIZE⟩, none)
    ∧ [Elem.eident "x"] ≠ ([] : List Elem) := by
  exact ⟨by rfl, by rfl, by decide⟩

/-- C6 as amended: `Inc` on a stack whose top is an `Identifier` of a
declared integer variable (whose value has room to grow) removes that
element, pushes nothing (length decreases by exactly one), and bumps the
named table entry by one while leaving every other entry unchanged; the
scenario `/x 10 def _x ++` sets `x` to 11 but ends with the single
leftover `Identifier x` (emitted by the declaration) on the stack, not
with an empty stack. -/
theorem C6_inc_amended (g : Gorth) (name : String) (x : Variable) (n : Int)
    (rest : List Elem)
    (hstk : g.execStack = .eident name :: rest)
    (hfind : vmFind g.varMap name = some x)
    (hty : x.ty = .int) (hval : x.value = .vint n)
    (hlo : minI64 ≤ n) (hhi : n < maxI64) :
    (g.inc = ({ g with
                  execStack := rest,
                  varMap := vmInsert g.varMap name { x with value := .vint (n + 1) } },
               none)
      ∧ (g.inc).1.execStack.length + 1 = g.execStack.length
      ∧ vmFind (g.inc).1.varMap name = some { x with value := .vint (n + 1) }
      ∧ (∀ other, other ≠ name → vmFind (g.inc).1.varMap other = vmFind g.varMap other))
    ∧ tokenize "/x 10 def _x ++" =
        .ok ([.eident "x", .eident "x", .eop .inc], [("x", ⟨.int, .vint 10, "x", false⟩)])
    ∧ (mkGorth [("x", ⟨.int, .vint 10, "x", false⟩)] false false).executeProgram
        [.eident "x", .eident "x", .eop .inc] =
      (⟨[.eident "x"], [("x", ⟨.int, .vint 11, "x", false⟩)], false, false,
        MAX_STACK_SIZE⟩, none) := by
  have hw : wrap64 (n + 1) = n + 1 := by
    apply wrap64_eq_self
    · unfold minI64 at hlo ⊢
      omega
    · unfold minI64 at hlo
      unfold maxI64 at hhi ⊢
      omega
  have hmain : g.inc = ({ g with
        execStack := rest,
        varMap := vmInsert g.varMap name { x with value := .vint (n + 1) } }, none) := by
    rcases g with ⟨stk, vm, dbg, strict, mx⟩
    simp only at hstk
    subst hstk
    simp [Gorth.inc, Gorth.pop, hfind, hty, hval, VVal.getInt, hw]
  refine ⟨⟨hmain, ?_, ?_, ?_⟩, by rfl, by rfl⟩
  · rw [hmain, hstk]
    simp
  · rw [hmain]
    exact vmFind_insert_self _ _ _
  · intro other hother
    rw [hmain]
    exact vmFind_insert_ne _ _ _ _ hother

/-- Witness for C6's amended theorem at the scenario's own state. -/
theorem C6_inc_amended_witness :
    Gorth.inc ⟨[.eident "x"], [("x", ⟨.int, .vint 10, "x", false⟩)], false, false,
        MAX_STACK_SIZE⟩ =
      (⟨[], [("x", ⟨.int, .vint 11, "x", false⟩)], false, false, MAX_STACK_SIZE⟩, none) :=
  ((C6_inc_amended
      ⟨[.eident "x"], [("x", ⟨.int, .vint 10, "x", false⟩)], false, false, MAX_STACK_SIZE⟩
      "x" ⟨.int, .vint 10, "x", false⟩ 10 [] (by rfl) (by rfl) (by rfl) (by rfl)
      (by decide) (by decide)).1).1

/-- C7: `VarAssign` pops the new value first and the target second; a
non-identifier target is rejected, an undeclared target name fails with the
undeclared-variable error, a const target fails with the
const-reassignment error, and a declared non-const target of an
established kind rejects a new value of a different kind with the
kind-mismatch error; the scenario `/pi 3.14 const` then `_pi 3.2 =` fails
with the const-reassignment error. -/
theorem C7_varAssign (g : Gorth) (v tgt : Elem) (rest : List Elem)
    (hstk : g.execStack = v :: tgt :: rest) :
    ((tgt.ty ≠ .identifier → (g.varAssign).2 = some .assignNonVariable)
      ∧ (∀ name, tgt = .eident name → vmFind g.varMap name = none →
          (g.varAssign).2 = some (.varNotDeclaredAssign name))
      ∧ (∀ name x, tgt = .eident name → vmFind g.varMap name = some x →
          x.isConst = true → (g.varAssign).2 = some (.constReassign name))
      ∧ (∀ name x, tgt = .eident name → vmFind g.varMap name = some x →
          x.isConst = false →
          (x.ty = .int ∨ x.ty = .float ∨ x.ty = .bool ∨ x.ty = .str) →
          v.ty ≠ x.ty → (g.varAssign).2 = some (.assignTypeMismatch x.ty)))
    ∧ tokenize "/pi 3.14 const _pi 3.2 =" =
        .ok ([.eident "pi", .eident "pi", .efloat (.lit "3.2"), .eop .varAssign],
             [("pi", ⟨.float, .vfloat (.lit "3.14"), "pi", true⟩)])
    ∧ ((mkGorth [("pi", ⟨.float, .vfloat (.lit "3.14"), "pi", true⟩)] false false).executeProgram
        [.eident "pi", .eident "pi", .efloat (.lit "3.2"), .eop .varAssign]).2 =
      some (.constReassign "pi") := by
  rcases g with ⟨stk, vm, dbg, strict, mx⟩
  simp only at hstk
  subst hstk
  refine ⟨⟨?_, ?_, ?_, ?_⟩, by rfl, by rfl⟩
  · intro hne
    cases tgt <;> simp_all [Gorth.varAssign, Gorth.pop, Elem.ty]
  · intro name htgt hfind
    subst htgt
    simp [Gorth.varAssign, Gorth.pop, hfind]
  · intro name x htgt hfind hconst
    subst htgt
    simp [Gorth.varAssign, Gorth.pop, hfind, hconst]
  · intro name x htgt hfind hconst hkind hne
    subst htgt
    obtain ⟨xty, xval, xname, xconst⟩ := x
    simp only at hconst hkind hne
    subst hconst
    rcases hkind with h | h | h | h <;>
      (subst h
       cases v <;> simp_all [Gorth.varAssign, Gorth.pop, Elem.ty])

/-- Witness for C7 at the scenario's own state: assigning to the const
variable `pi` fails with the const-reassignment error. -/
theorem C7_varAssign_witness :
    (Gorth.varAssign ⟨[.efloat (.lit "3.2"), .eident "pi"],
        [("pi", ⟨.float, .vfloat (.lit "3.14"), "pi", true⟩)], false, false,
        MAX_STACK_SIZE⟩).2 =
      some (.constReassign "pi") :=
  (((C7_varAssign ⟨[.efloat (.lit "3.2"), .eident "pi"],
        [("pi", ⟨.float, .vfloat (.lit "3.14"), "pi", true⟩)], false, false,
        MAX_STACK_SIZE⟩
      (.efloat (.lit "3.2")) (.eident "pi") [] (by rfl)).1).2.2.1 "pi"
      ⟨.float, .vfloat (.lit "3.14"), "pi", true⟩ (by rfl) (by rfl) (by rfl))

/-- C10: when `Equal` pops one `Identifier` element and one non-identifier
value element (in either order), the element-kind comparison fires before
any identifier resolution, so it pushes `Bool false` and never consults
the variable table; in particular for any declared variable and any
literal — even of matching kind and value — the program `_x v ==` leaves
exactly `false` on the stack. -/
theorem C10_equal_identifier_mixed (g : Gorth) (name : String) (v : Elem)
    (rest : List Elem)
    (hty : v.ty ≠ .identifier) (hop : v.ty ≠ .operator)
    (hlen : g.execStack.length ≤ g.maxStackSize) :
    (g.execStack = v :: .eident name :: rest →
        g.equal = ({ g with execStack := .ebool false :: rest }, none))
    ∧ (g.execStack = .eident name :: v :: rest →
        g.equal = ({ g with execStack := .ebool false :: rest }, none))
    ∧ (∀ (vm : VarMap) (x : Variable), vmFind vm name = some x →
        (mkGorth vm false false).executeProgram [.eident name, v, .eop .equal] =
          (⟨[.ebool false], vm, false, false, MAX_STACK_SIZE⟩, none)) := by
  refine ⟨?_, ?_, ?_⟩
  · intro hstk
    rcases g with ⟨stk, vm, dbg, strict, mx⟩
    simp only at hstk hlen
    subst hstk
    have hroom : ¬ (mx ≤ rest.length) := by
      simp at hlen
      omega
    cases v <;>
      simp_all [Gorth.equal, Gorth.pop, Elem.ty, Gorth.pushD, Gorth.push] <;>
      rw [if_neg (by omega : ¬ mx ≤ rest.length)]
  · intro hstk
    rcases g with ⟨stk, vm, dbg, strict, mx⟩
    simp only at hstk hlen
    subst hstk
    have hroom : ¬ (mx ≤ rest.length) := by
      simp at hlen
      omega
    cases v <;>
      simp_all [Gorth.equal, Gorth.pop, Elem.ty, Gorth.pushD, Gorth.push] <;>
      rw [if_neg (by omega : ¬ mx ≤ rest.length)]
  · intro vm x hfind
    cases v <;>
      simp_all [mkGorth, Gorth.executeProgram, Gorth.execTokens, Gorth.execToken,
                Gorth.execOp, Gorth.equal, Gorth.pop, Gorth.push, Gorth.pushD,
                MAX_STACK_SIZE, Elem.ty]

/-- Witness for C10: with `x` declared as the integer 5 and the literal 5
as the other operand — matching kind and value — the program still leaves
`false`. -/
theorem C10_equal_identifier_mixed_witness :
    (mkGorth [("x", ⟨.int, .vint 5, "x", false⟩)] false false).executeProgram
      [.eident "x", .eint 5, .eop .equal] =
      (⟨[.ebool false], [("x", ⟨.int, .vint 5, "x", false⟩)], false, false,
        MAX_STACK_SIZE⟩, none) :=
  (C10_equal_identifier_mixed (mkGorth [("x", ⟨.int, .vint 5, "x", false⟩)] false false)
      "x" (.eint 5) [] (by decide) (by decide) (by decide)).2.2
    [("x", ⟨.int, .vint 5, "x", false⟩)] ⟨.int, .vint 5, "x", false⟩ (by rfl)

/-- The stack is within the bound `m` and the configured bound equals `m`. -/
def StackOK (m : Nat) (g : Gorth) : Prop :=
  g.execStack.length ≤ m ∧ g.maxStackSize = m

/-- A push whose error is discarded keeps the stack within its bound. -/
theorem stackOK_pushD (m : Nat) (g : Gorth) (v : Elem) (h : StackOK m g) :
    StackOK m (g.pushD v) := by
  obtain ⟨h1, h2⟩ := h
  unfold Gorth.pushD Gorth.push
  by_cases hc : g.maxStackSize ≤ g.execStack.length
  · simp only [hc, if_pos]
    exact ⟨h1, h2⟩
  · simp only [hc, if_neg, ite_false]
    refine ⟨?_, h2⟩
    simp only [List.length_cons]
    omega

/-- A successful checked push keeps the stack within its bound. -/
theorem stackOK_push_ok (m : Nat) (g g' : Gorth) (v : Elem)
    (heq : g.push v = .ok g') (h : StackOK m g) : StackOK m g' := by
  obtain ⟨h1, h2⟩ := h
  unfold Gorth.push at heq
  by_cases hc : g.maxStackSize ≤ g.execStack.length
  · simp [hc] at heq
  · simp only [hc, ite_false] at heq
    cases heq
    refine ⟨?_, h2⟩
    simp only [List.length_cons]
    omega

/-- `Add` keeps the stack within its bound. -/
theorem stackOK_add (m : Nat) (g : Gorth) (h : StackOK m g) :
    StackOK m (g.add).1 := by
  obtain ⟨h1, h2⟩ := h
  rcases g with ⟨stk, vm, dbg, strict, mx⟩
  rcases stk with _ | ⟨v1, stk⟩
  · exact ⟨h1, h2⟩
  rcases stk with _ | ⟨v2, stk⟩
  · exact ⟨Nat.zero_le m, h2⟩
  have hs1 : stk.length ≤ m := by
    simp only [List.length_cons] at h1
    omega
  rcases v1 <;> rcases v2 <;>
    simp only [Gorth.add, Gorth.pop] <;>
    (repeat' split) <;>
    first
      | exact ⟨hs1, h2⟩
      | exact stackOK_pushD m _ _ ⟨hs1, h2⟩

/-- `sub` keeps the stack within its bound. -/
theorem stackOK_sub (m : Nat) (g : Gorth) (h : StackOK m g) :
    StackOK m (g.sub).1 := by
  obtain ⟨h1, h2⟩ := h
  rcases g with ⟨stk, vm, dbg, strict, mx⟩
  rcases stk with _ | ⟨v1, stk⟩
  · exact ⟨h1, h2⟩
  rcases stk with _ | ⟨v2, stk⟩
  · exact ⟨Nat.zero_le m, h2⟩
  have hs1 : stk.length ≤ m := by
    simp only [List.length_cons] at h1
    omega
  rcases v1 <;> rcases v2 <;>
    simp only [Gorth.sub, Gorth.pop] <;>
    (repeat' split) <;>
    first
      | exact ⟨hs1, h2⟩
      | exact stackOK_pushD m _ _ ⟨hs1, h2⟩
      | exact stackOK_pushD m _ _ (stackOK_pushD m _ _ ⟨hs1, h2⟩)

/-- `mul` keeps the stack within its bound. -/
theorem stackOK_mul (m : Nat) (g : Gorth) (h : StackOK m g) :
    StackOK m (g.mul).1 := by
  obtain ⟨h1, h2⟩ := h
  rcases g with ⟨stk, vm, dbg, strict, mx⟩
  rcases stk with _ | ⟨v1, stk⟩
  · exact ⟨h1, h2⟩
  rcases stk with _ | ⟨v2, stk⟩
  · exact ⟨Nat.zero_le m, h2⟩
  have hs1 : stk.length ≤ m := by
    simp only [List.length_cons] at h1
    omega
  rcases v1 <;> rcases v2 <;>
    simp only [Gorth.mul, Gorth.pop] <;>
    (repeat' split) <;>
    first
      | exact ⟨hs1, h2⟩
      | exact stackOK_pushD m _ _ ⟨hs1, h2⟩
      | exact stackOK_pushD m _ _ (stackOK_pushD m _ _ ⟨hs1, h2⟩)

/-- `div` keeps the stack within its bound. -/
theorem stackOK_div (m : Nat) (g : Gorth) (h : StackOK m g) :
    StackOK m (g.div).1 := by
  obtain ⟨h1, h2⟩ := h
  rcases g with ⟨stk, vm, dbg, strict, mx⟩
  rcases stk with _ | ⟨v1, stk⟩
  · exact ⟨h1, h2⟩
  rcases stk with _ | ⟨v2, stk⟩
  · exact ⟨Nat.zero_le m, h2⟩
  have hs1 : stk.length ≤ m := by
    simp only [List.length_cons] at h1
    omega
  rcases v1 <;> rcases v2 <;>
    simp only [Gorth.div, Gorth.pop] <;>
    (repeat' split) <;>
    first
      | exact ⟨hs1, h2⟩
      | exact stackOK_pushD m _ _ ⟨hs1, h2⟩
      | exact stackOK_pushD m _ _ (stackOK_pushD m _ _ ⟨hs1, h2⟩)

/-- `mod` keeps the stack within its bound. -/
theorem stackOK_mod (m : Nat) (g : Gorth) (h : StackOK m g) :
    StackOK m (g.mod).1 := by
  obtain ⟨h1, h2⟩ := h
  rcases g with ⟨stk, vm, dbg, strict, mx⟩
  rcases stk with _ | ⟨v1, stk⟩
  · exact ⟨h1, h2⟩
  rcases stk with _ | ⟨v2, stk⟩
  · exact ⟨Nat.zero_le m, h2⟩
  have hs1 : stk.length ≤ m := by
    simp only [List.length_cons] at h1
    omega
  rcases v1 <;> rcases v2 <;>
    simp only [Gorth.mod, Gorth.pop] <;>
    (repeat' split) <;>
    first
      | exact ⟨hs1, h2⟩
      | exact stackOK_pushD m _ _ ⟨hs1, h2⟩
      | exact stackOK_pushD m _ _ (stackOK_pushD m _ _ ⟨hs1, h2⟩)

/-- `exp` keeps the stack within its bound. -/
theorem stackOK_exp (m : Nat) (g : Gorth) (h : StackOK m g) :
    StackOK m (g.exp).1 := by
  obtain ⟨h1, h2⟩ := h
  rcases g with ⟨stk, vm, dbg, strict, mx⟩
  rcases stk with _ | ⟨v1, stk⟩
  · exact ⟨h1, h2⟩
  rcases stk with _ | ⟨v2, stk⟩
  · exact ⟨Nat.zero_le m, h2⟩
  have hs1 : stk.length ≤ m := by
    simp only [List.length_cons] at h1
    omega
  rcases v1 <;> rcases v2 <;>
    simp only [Gorth.exp, Gorth.pop] <;>
    (repeat' split) <;>
    first
      | exact ⟨hs1, h2⟩
      | exact stackOK_pushD m _ _ ⟨hs1, h2⟩
      | exact stackOK_pushD m _ _ (stackOK_pushD m _ _ ⟨hs1, h2⟩)

/-- `swap` keeps the stack within its bound. -/
theorem stackOK_swap (m : Nat) (g : Gorth) (h : StackOK m g) :
    StackOK m (g.swap).1 := by
  obtain ⟨h1, h2⟩ := h
  rcases g with ⟨stk, vm, dbg, strict, mx⟩
  rcases stk with _ | ⟨v1, stk⟩
  · exact ⟨h1, h2⟩
  rcases stk with _ | ⟨v2, stk⟩
  · exact ⟨Nat.zero_le m, h2⟩
  have hs1 : stk.length ≤ m := by
    simp only [List.length_cons] at h1
    omega
  rcases v1 <;> rcases v2 <;>
    simp only [Gorth.swap, Gorth.pop] <;>
    (repeat' split) <;>
    first
      | exact ⟨hs1, h2⟩
      | exact stackOK_pushD m _ _ ⟨hs1, h2⟩
      | exact stackOK_pushD m _ _ (stackOK_pushD m _ _ ⟨hs1, h2⟩)

/-- `and` keeps the stack within its bound. -/
theorem stackOK_and (m : Nat) (g : Gorth) (h : StackOK m g) :
    StackOK m (g.and).1 := by
  obtain ⟨h1, h2⟩ := h
  rcases g with ⟨stk, vm, dbg, strict, mx⟩
  rcases stk with _ | ⟨v1, stk⟩
  · exact ⟨h1, h2⟩
  rcases stk with _ | ⟨v2, stk⟩
  · exact ⟨Nat.zero_le m, h2⟩
  have hs1 : stk.length ≤ m := by
    simp only [List.length_cons] at h1
    omega
  rcases v1 <;> rcases v2 <;>
    simp only [Gorth.and, Gorth.pop] <;>
    (repeat' split) <;>
    first
      | exact ⟨hs1, h2⟩
      | exact stackOK_pushD m _ _ ⟨hs1, h2⟩
      | exact stackOK_pushD m _ _ (stackOK_pushD m _ _ ⟨hs1, h2⟩)

/-- `or` keeps the stack within its bound. -/
theorem stackOK_or (m : Nat) (g : Gorth) (h : StackOK m g) :
    StackOK m (g.or).1 := by
  obtain ⟨h1, h2⟩ := h
  rcases g with ⟨stk, vm, dbg, strict, mx⟩
  rcases stk with _ | ⟨v1, stk⟩
  · exact ⟨h1, h2⟩
  rcases stk with _ | ⟨v2, stk⟩
  · exact ⟨Nat.zero_le m, h2⟩
  have hs1 : stk.length ≤ m := by
    simp only [List.length_cons] at h1
    omega
  rcases v1 <;> rcases v2 <;>
    simp only [Gorth.or, Gorth.pop] <;>
    (repeat' split) <;>
    first
      | exact ⟨hs1, h2⟩
      | exact stackOK_pushD m _ _ ⟨hs1, h2⟩
      | exact stackOK_pushD m _ _ (stackOK_pushD m _ _ ⟨hs1, h2⟩)

/-- `equal` keeps the stack within its bound. -/
theorem stackOK_equal (m : Nat) (g : Gorth) (h : StackOK m g) :
    StackOK m (g.equal).1 := by
  obtain ⟨h1, h2⟩ := h
  rcases g with ⟨stk, vm, dbg, strict, mx⟩
  rcases stk with _ | ⟨v1, stk⟩
  · exact ⟨h1, h2⟩
  rcases stk with _ | ⟨v2, stk⟩
  · exact ⟨Nat.zero_le m, h2⟩
  have hs1 : stk.length ≤ m := by
    simp only [List.length_cons] at h1
    omega
  rcases v1 <;> rcases v2 <;>
    simp only [Gorth.equal, Gorth.pop] <;>
    (repeat' split) <;>
    first
      | exact ⟨hs1, h2⟩
      | exact stackOK_pushD m _ _ ⟨hs1, h2⟩
      | exact stackOK_pushD m _ _ (stackOK_pushD m _ _ ⟨hs1, h2⟩)

/-- `equalType` keeps the stack within its bound. -/
theorem stackOK_equalType (m : Nat) (g : Gorth) (h : StackOK m g) :
    StackOK m (g.equalType).1 := by
  obtain ⟨h1, h2⟩ := h
  rcases g with ⟨stk, vm, dbg, strict, mx⟩
  rcases stk with _ | ⟨v1, stk⟩
  · exact ⟨h1, h2⟩
  rcases stk with _ | ⟨v2, stk⟩
  · exact ⟨Nat.zero_le m, h2⟩
  have hs1 : stk.length ≤ m := by
    simp only [List.length_cons] at h1
    omega
  rcases v1 <;> rcases v2 <;>
    simp only [Gorth.equalType, Gorth.pop] <;>
    (repeat' split) <;>
    first
      | exact ⟨hs1, h2⟩
      | exact stackOK_pushD m _ _ ⟨hs1, h2⟩
      | exact stackOK_pushD m _ _ (stackOK_pushD m _ _ ⟨hs1, h2⟩)

/-- `greaterThan` keeps the stack within its bound. -/
theorem stackOK_greaterThan (m : Nat) (g : Gorth) (h : StackOK m g) :
    StackOK m (g.greaterThan).1 := by
  obtain ⟨h1, h2⟩ := h
  rcases g with ⟨stk, vm, dbg, strict, mx⟩
  rcases stk with _ | ⟨v1, stk⟩
  · exact ⟨h1, h2⟩
  rcases stk with _ | ⟨v2, stk⟩
  · exact ⟨Nat.zero_le m, h2⟩
  have hs1 : stk.length ≤ m := by
    simp only [List.length_cons] at h1
    omega
  rcases v1 <;> rcases v2 <;>
    simp only [Gorth.greaterThan, Gorth.pop] <;>
    (repeat' split) <;>
    first
      | exact ⟨hs1, h2⟩
      | exact stackOK_pushD m _ _ ⟨hs1, h2⟩
      | exact stackOK_pushD m _ _ (stackOK_pushD m _ _ ⟨hs1, h2⟩)

/-- `lessThan` keeps the stack within its bound. -/
theorem stackOK_lessThan (m : Nat) (g : Gorth) (h : StackOK m g) :
    StackOK m (g.lessThan).1 := by
  obtain ⟨h1, h2⟩ := h
  rcases g with ⟨stk, vm, dbg, strict, mx⟩
  rcases stk with _ | ⟨v1, stk⟩
  · exact ⟨h1, h2⟩
  rcases stk with _ | ⟨v2, stk⟩
  · exact ⟨Nat.zero_le m, h2⟩
  have hs1 : stk.length ≤ m := by
    simp only [List.length_cons] at h1
    omega
  rcases v1 <;> rcases v2 <;>
    simp only [Gorth.lessThan, Gorth.pop] <;>
    (repeat' split) <;>
    first
      | exact ⟨hs1, h2⟩
      | exact stackOK_pushD m _ _ ⟨hs1, h2⟩
      | exact stackOK_pushD m _ _ (stackOK_pushD m _ _ ⟨hs1, h2⟩)

/-- `greaterThanEqual` keeps the stack within its bound. -/
theorem stackOK_greaterThanEqual (m : Nat) (g : Gorth) (h : StackOK m g) :
    StackOK m (g.greaterThanEqual).1 := by
  obtain ⟨h1, h2⟩ := h
  rcases g with ⟨stk, vm, dbg, strict, mx⟩
  rcases stk with _ | ⟨v1, stk⟩
  · exact ⟨h1, h2⟩
  rcases stk with _ | ⟨v2, stk⟩
  · exact ⟨Nat.zero_le m, h2⟩
  have hs1 : stk.length ≤ m := by
    simp only [List.length_cons] at h1
    omega
  rcases v1 <;> rcases v2 <;>
    simp only [Gorth.greaterThanEqual, Gorth.pop] <;>
    (repeat' split) <;>
    first
      | exact ⟨hs1, h2⟩
      | exact stackOK_pushD m _ _ ⟨hs1, h2⟩
      | exact stackOK_pushD m _ _ (stackOK_pushD m _ _ ⟨hs1, h2⟩)

/-- `lessThanEqual` keeps the stack within its bound. -/
theorem stackOK_lessThanEqual (m : Nat) (g : Gorth) (h : StackOK m g) :
    StackOK m (g.lessThanEqual).1 := by
  obtain ⟨h1, h2⟩ := h
  rcases g with ⟨stk, vm, dbg, strict, mx⟩
  rcases stk with _ | ⟨v1, stk⟩
  · exact ⟨h1, h2⟩
  rcases stk with _ | ⟨v2, stk⟩
  · exact ⟨Nat.zero_le m, h2⟩
  have hs1 : stk.length ≤ m := by
    simp only [List.length_cons] at h1
    omega
  rcases v1 <;> rcases v2 <;>
    simp only [Gorth.lessThanEqual, Gorth.pop] <;>
    (repeat' split) <;>
    first
      | exact ⟨hs1, h2⟩
      | exact stackOK_pushD m _ _ ⟨hs1, h2⟩
      | exact stackOK_pushD m _ _ (stackOK_pushD m _ _ ⟨hs1, h2⟩)

/-- `varAssign` keeps the stack within its bound. -/
theorem stackOK_varAssign (m : Nat) (g : Gorth) (h : StackOK m g) :
    StackOK m (g.varAssign).1 := by
  obtain ⟨h1, h2⟩ := h
  rcases g with ⟨stk, vm, dbg, strict, mx⟩
  rcases stk with _ | ⟨v1, stk⟩
  · exact ⟨h1, h2⟩
  rcases stk with _ | ⟨v2, stk⟩
  · exact ⟨Nat.zero_le m, h2⟩
  have hs1 : stk.length ≤ m := by
    simp only [List.length_cons] at h1
    omega
  rcases v1 <;> rcases v2 <;>
    simp only [Gorth.varAssign, Gorth.pop] <;>
    (repeat' split) <;>
    first
      | exact ⟨hs1, h2⟩
      | exact stackOK_pushD m _ _ ⟨hs1, h2⟩
      | exact stackOK_pushD m _ _ (stackOK_pushD m _ _ ⟨hs1, h2⟩)

/-- `inc` keeps the stack within its bound. -/
theorem stackOK_inc (m : Nat) (g : Gorth) (h : StackOK m g) :
    StackOK m (g.inc).1 := by
  obtain ⟨h1, h2⟩ := h
  rcases g with ⟨stk, vm, dbg, strict, mx⟩
  rcases stk with _ | ⟨v1, stk⟩
  · exact ⟨h1, h2⟩
  have hs1 : stk.length ≤ m := by
    simp only [List.length_cons] at h1
    omega
  rcases v1 <;>
    simp only [Gorth.inc, Gorth.pop, Gorth.peek] <;>
    (repeat' split) <;>
    first
      | exact ⟨hs1, h2⟩
      | exact ⟨h1, h2⟩
      | exact stackOK_pushD m _ _ ⟨hs1, h2⟩
      | exact stackOK_pushD m _ _ ⟨h1, h2⟩

/-- `dec` keeps the stack within its bound. -/
theorem stackOK_dec (m : Nat) (g : Gorth) (h : StackOK m g) :
    StackOK m (g.dec).1 := by
  obtain ⟨h1, h2⟩ := h
  rcases g with ⟨stk, vm, dbg, strict, mx⟩
  rcases stk with _ | ⟨v1, stk⟩
  · exact ⟨h1, h2⟩
  have hs1 : stk.length ≤ m := by
    simp only [List.length_cons] at h1
    omega
  rcases v1 <;>
    simp only [Gorth.dec, Gorth.pop, Gorth.peek] <;>
    (repeat' split) <;>
    first
      | exact ⟨hs1, h2⟩
      | exact ⟨h1, h2⟩
      | exact stackOK_pushD m _ _ ⟨hs1, h2⟩
      | exact stackOK_pushD m _ _ ⟨h1, h2⟩

/-- `neg` keeps the stack within its bound. -/
theorem stackOK_neg (m : Nat) (g : Gorth) (h : StackOK m g) :
    StackOK m (g.neg).1 := by
  obtain ⟨h1, h2⟩ := h
  rcases g with ⟨stk, vm, dbg, strict, mx⟩
  rcases stk with _ | ⟨v1, stk⟩
  · exact ⟨h1, h2⟩
  have hs1 : stk.length ≤ m := by
    simp only [List.length_cons] at h1
    omega
  rcases v1 <;>
    simp only [Gorth.neg, Gorth.pop, Gorth.peek] <;>
    (repeat' split) <;>
    first
      | exact ⟨hs1, h2⟩
      | exact ⟨h1, h2⟩
      | exact stackOK_pushD m _ _ ⟨hs1, h2⟩
      | exact stackOK_pushD m _ _ ⟨h1, h2⟩

/-- `not` keeps the stack within its bound. -/
theorem stackOK_not (m : Nat) (g : Gorth) (h : StackOK m g) :
    StackOK m (g.not).1 := by
  obtain ⟨h1, h2⟩ := h
  rcases g with ⟨stk, vm, dbg, strict, mx⟩
  rcases stk with _ | ⟨v1, stk⟩
  · exact ⟨h1, h2⟩
  have hs1 : stk.length ≤ m := by
    simp only [List.length_cons] at h1
    omega
  rcases v1 <;>
    simp only [Gorth.not, Gorth.pop, Gorth.peek] <;>
    (repeat' split) <;>
    first
      | exact ⟨hs1, h2⟩
      | exact ⟨h1, h2⟩
      | exact stackOK_pushD m _ _ ⟨hs1, h2⟩
      | exact stackOK_pushD m _ _ ⟨h1, h2⟩

/-- `dup` keeps the stack within its bound. -/
theorem stackOK_dup (m : Nat) (g : Gorth) (h : StackOK m g) :
    StackOK m (g.dup).1 := by
  obtain ⟨h1, h2⟩ := h
  rcases g with ⟨stk, vm, dbg, strict, mx⟩
  rcases stk with _ | ⟨v1, stk⟩
  · exact ⟨h1, h2⟩
  have hs1 : stk.length ≤ m := by
    simp only [List.length_cons] at h1
    omega
  rcases v1 <;>
    simp only [Gorth.dup, Gorth.pop, Gorth.peek] <;>
    (repeat' split) <;>
    first
      | exact ⟨hs1, h2⟩
      | exact ⟨h1, h2⟩
      | exact stackOK_pushD m _ _ ⟨hs1, h2⟩
      | exact stackOK_pushD m _ _ ⟨h1, h2⟩

/-- `drop` keeps the stack within its bound. -/
theorem stackOK_drop (m : Nat) (g : Gorth) (h : StackOK m g) :
    StackOK m (g.drop).1 := by
  obtain ⟨h1, h2⟩ := h
  rcases g with ⟨stk, vm, dbg, strict, mx⟩
  rcases stk with _ | ⟨v1, stk⟩
  · exact ⟨h1, h2⟩
  have hs1 : stk.length ≤ m := by
    simp only [List.length_cons] at h1
    omega
  rcases v1 <;>
    simp only [Gorth.drop, Gorth.pop, Gorth.peek] <;>
    (repeat' split) <;>
    first
      | exact ⟨hs1, h2⟩
      | exact ⟨h1, h2⟩
      | exact stackOK_pushD m _ _ ⟨hs1, h2⟩
      | exact stackOK_pushD m _ _ ⟨h1, h2⟩

/-- `dump` keeps the stack within its bound. -/
theorem stackOK_dump (m : Nat) (g : Gorth) (h : StackOK m g) :
    StackOK m (g.dump).1 := by
  obtain ⟨h1, h2⟩ := h
  rcases g with ⟨stk, vm, dbg, strict, mx⟩
  rcases stk with _ | ⟨v1, stk⟩
  · exact ⟨h1, h2⟩
  have hs1 : stk.length ≤ m := by
    simp only [List.length_cons] at h1
    omega
  rcases v1 <;>
    simp only [Gorth.dump, Gorth.pop, Gorth.peek] <;>
    (repeat' split) <;>
    first
      | exact ⟨hs1, h2⟩
      | exact ⟨h1, h2⟩
      | exact stackOK_pushD m _ _ ⟨hs1, h2⟩
      | exact stackOK_pushD m _ _ ⟨h1, h2⟩

/-- `print` keeps the stack within its bound. -/
theorem stackOK_print (m : Nat) (g : Gorth) (h : StackOK m g) :
    StackOK m (g.print).1 := by
  obtain ⟨h1, h2⟩ := h
  rcases g with ⟨stk, vm, dbg, strict, mx⟩
  rcases stk with _ | ⟨v1, stk⟩
  · exact ⟨h1, h2⟩
  have hs1 : stk.length ≤ m := by
    simp only [List.length_cons] at h1
    omega
  rcases v1 <;>
    simp only [Gorth.print, Gorth.pop, Gorth.peek] <;>
    (repeat' split) <;>
    first
      | exact ⟨hs1, h2⟩
      | exact ⟨h1, h2⟩
      | exact stackOK_pushD m _ _ ⟨hs1, h2⟩
      | exact stackOK_pushD m _ _ ⟨h1, h2⟩

/-- With three elements available and room within the bound, `rot` rotates
the third-from-top to the top. -/
theorem rot_spec (v1 v2 v3 : Elem) (stk : List Elem) (vm : VarMap)
    (d s : Bool) (m : Nat) (h : stk.length + 3 ≤ m) :
    (Gorth.rot ⟨v1 :: v2 :: v3 :: stk, vm, d, s, m⟩) =
      (⟨v3 :: v1 :: v2 :: stk, vm, d, s, m⟩, none) := by
  have c0 : ¬ (stk.length + 1 + 1 + 1 < 3) := by
    omega
  have c1 : ¬ (m ≤ stk.length) := by
    omega
  have c2 : ¬ (m ≤ stk.length + 1) := by
    omega
  have c3 : ¬ (m ≤ stk.length + 1 + 1) := by
    omega
  simp [Gorth.rot, Gorth.pop, Gorth.push, c0, c1, c2, c3]

/-- `rot` keeps the stack within its bound. -/
theorem stackOK_rot (m : Nat) (g : Gorth) (h : StackOK m g) :
    StackOK m (g.rot).1 := by
  obtain ⟨h1, h2⟩ := h
  rcases g with ⟨stk, vm, dbg, strict, mx⟩
  simp only at h1 h2
  subst h2
  rcases stk with _ | ⟨v1, _ | ⟨v2, _ | ⟨v3, stk⟩⟩⟩
  · exact ⟨h1, rfl⟩
  · exact ⟨h1, rfl⟩
  · exact ⟨h1, rfl⟩
  · simp only [List.length_cons] at h1
    rw [rot_spec v1 v2 v3 stk vm dbg strict _ (by omega)]
    refine ⟨?_, rfl⟩
    simp only [List.length_cons]
    omega

/-- `notEqual` keeps the stack within its bound. -/
theorem stackOK_notEqual (m : Nat) (g : Gorth) (h : StackOK m g) :
    StackOK m (g.notEqual) := by
  unfold Gorth.notEqual
  exact stackOK_not m _ (stackOK_equal m g h)

/-- Every dispatched operator keeps the stack within its bound. -/
theorem stackOK_execOp (m : Nat) (g : Gorth) (o : Op) (h : StackOK m g) :
    StackOK m (g.execOp o).1 := by
  cases o with
  | add => exact stackOK_add m g h
  | sub => exact stackOK_sub m g h
  | mul => exact stackOK_mul m g h
  | div => exact stackOK_div m g h
  | mod => exact stackOK_mod m g h
  | exp => exact stackOK_exp m g h
  | inc => exact stackOK_inc m g h
  | dec => exact stackOK_dec m g h
  | swap => exact stackOK_swap m g h
  | dup => exact stackOK_dup m g h
  | drop => exact stackOK_drop m g h
  | dump => exact stackOK_dump m g h
  | rot => exact stackOK_rot m g h
  | print => exact stackOK_print m g h
  | and => exact stackOK_and m g h
  | or => exact stackOK_or m g h
  | not => exact stackOK_not m g h
  | equal => exact stackOK_equal m g h
  | notEqual => exact stackOK_notEqual m g h
  | equalTyp => exact stackOK_equalType m g h
  | gtThan => exact stackOK_greaterThan m g h
  | lsThan => exact stackOK_lessThan m g h
  | gtThanEq => exact stackOK_greaterThanEqual m g h
  | lsThanEq => exact stackOK_lessThanEqual m g h
  | varAssign => exact stackOK_varAssign m g h

/-- One engine step keeps the stack within its bound. -/
theorem stackOK_execToken (m : Nat) (g : Gorth) (t : Elem) (h : StackOK m g) :
    StackOK m (g.execToken t).1 := by
  have hpush : ∀ v : Elem, StackOK m (((match g.push v with
      | .ok g' => (g', none)
      | .error e => (g, some e)) : EngRes)).1 := by
    intro v
    obtain ⟨h1, h2⟩ := h
    unfold Gorth.push
    by_cases hc : g.maxStackSize ≤ g.execStack.length
    · simp only [hc, if_pos]
      exact ⟨h1, h2⟩
    · simp only [hc, ite_false]
      refine ⟨?_, h2⟩
      simp only [List.length_cons]
      omega
  cases t with
  | eop o => exact stackOK_execOp m g o h
  | eint n => exact hpush (.eint n)
  | estr s => exact hpush (.estr s)
  | ebool b => exact hpush (.ebool b)
  | efloat f => exact hpush (.efloat f)
  | eident n => exact hpush (.eident n)

/-- The whole execution loop keeps the stack within its bound. -/
theorem stackOK_execTokens (m : Nat) (g : Gorth) (prog : List Elem)
    (h : StackOK m g) : StackOK m (g.execTokens prog).1 := by
  induction prog generalizing g with
  | nil => exact h
  | cons t ts ih =>
    have hstep := stackOK_execToken m g t h
    simp only [Gorth.execTokens]
    cases hs : g.execToken t with
    | mk g' e? =>
      rw [hs] at hstep
      cases e? with
      | none => exact ih g' hstep
      | some e => exact hstep

/-- C3: a single engine step and the whole execution loop never push the
operand stack beyond the configured maximum, and a push attempted (by a
non-operator token) when the stack is already at the maximum fails with
the stack-overflow error leaving the engine state — stack length, contents
and top item — completely unchanged. -/
theorem C3_stack_bound (g : Gorth) :
    (∀ t : Elem, g.execStack.length ≤ g.maxStackSize →
        (g.execToken t).1.execStack.length ≤ g.maxStackSize)
    ∧ (∀ prog : List Elem, g.execStack.length ≤ g.maxStackSize →
        (g.execTokens prog).1.execStack.length ≤ g.maxStackSize)
    ∧ (∀ v : Elem, v.ty ≠ .operator → g.execStack.length = g.maxStackSize →
        g.execToken v = (g, some .stackOverflow)) := by
  refine ⟨?_, ?_, ?_⟩
  · intro t h
    exact (stackOK_execToken g.maxStackSize g t ⟨h, rfl⟩).1
  · intro prog h
    exact (stackOK_execTokens g.maxStackSize g prog ⟨h, rfl⟩).1
  · intro v hv hfull
    cases v <;>
      simp_all [Gorth.execToken, Gorth.push, Elem.ty]

/-- Witness for C3 at a two-slot engine holding two items: a further push
fails with the overflow error and changes nothing. -/
theorem C3_stack_bound_witness :
    ((⟨[.eint 1, .eint 2], [], false, false, 2⟩ : Gorth).execToken
        (.eint 3)).1.execStack.length ≤ 2
    ∧ (⟨[.eint 1, .eint 2], [], false, false, 2⟩ : Gorth).execToken (.eint 3) =
        (⟨[.eint 1, .eint 2], [], false, false, 2⟩, some .stackOverflow) :=
  ⟨(C3_stack_bound ⟨[.eint 1, .eint 2], [], false, false, 2⟩).1 (.eint 3) (by decide),
   (C3_stack_bound ⟨[.eint 1, .eint 2], [], false, false, 2⟩).2.2 (.eint 3)
     (by decide) (by decide)⟩
